import Mathlib

/-!
# Event registry and resolution engine of twitch-cli

A shallow embedding of `internal/events/types/types.go` (the catalog, the topic
index and the resolver), of the `channel_chat` descriptor
(`internal/events/types/channel_chat/message.go`, with the event body of
`internal/models/channel_chat_message.go`) and of the random values of
`internal/util/random.go`, followed by theorems about them.

Conventions of the embedding:
* a Go `string` is a Lean `String`;
* a Go `map[string]T` literal is an association list, read with `List.lookup`;
  a lookup of an absent key yields the zero value of `T`, as in Go;
* a Go `(value, error)` result is a pair of options, `none` standing for `nil`;
  an `error` is represented by its message;
* the catalog returned by `AllEvents()` is a parameter of the functions that
  range over it: of its thirty descriptors only `channel_chat.Event` is embedded
  here;
* a JSON payload is the document that its bytes encode, a `json.Value`;
* the random source `crypto/rand.Reader` is an explicit argument, a sequence of
  draws, and a function that draws returns the source that remains.
-/

namespace models

/-- Modelled from the spec: the constant `models.TransportWebhook`, whose declaration is
not among the embedded files; the spec names the transport "webhook". -/
def TransportWebhook : String := "webhook"

/-- Modelled from the spec: the constant `models.TransportWebSocket`, whose declaration is
not among the embedded files; the spec names the transport "websocket". -/
def TransportWebSocket : String := "websocket"

end models

namespace events

/-- Modelled from the spec: the interface `events.MockEvent`, whose declaration is not
among the embedded files. It is the capability contract of section 4.1 of the spec, with
one field per method that `types.go` calls on a descriptor (`GenerateEvent` is not called
there). -/
structure MockEvent where
  /-- Membership test against the supported transports. -/
  ValidTransport : String → Bool
  /-- Membership test against the supported triggers. -/
  ValidTrigger : String → Bool
  /-- Topic of a trigger under a transport, empty if absent. -/
  GetTopic : String → String → String
  /-- All topics exposed under a transport. -/
  GetAllTopicsByTransport : String → List String
  /-- Reverse lookup from a canonical topic to a trigger, empty if none. -/
  GetEventSubAlias : String → String
  /-- Schema version implemented by the descriptor. -/
  SubscriptionVersion : String

end events

namespace strings

/-- Runes that `unicode.SimpleFold` puts in one orbit, for orbits that contain an ASCII
letter: the two cases of a letter, plus the Kelvin sign with `k` and the long s with `s`. -/
def foldsTo (a b : Char) : Bool :=
  a == b
    || (a.isUpper && b == a.toLower)
    || (b.isUpper && a == b.toLower)
    || ((a == Char.ofNat 0x212A) && (b == 'k' || b == 'K'))
    || ((b == Char.ofNat 0x212A) && (a == 'k' || a == 'K'))
    || ((a == Char.ofNat 0x17F) && (b == 's' || b == 'S'))
    || ((b == Char.ofNat 0x17F) && (a == 's' || a == 'S'))

/-- Rune-by-rune loop of `strings.EqualFold`. -/
def equalFoldRunes : List Char → List Char → Bool
  | [], [] => true
  | a :: s, b :: t => foldsTo a b && equalFoldRunes s t
  | _, _ => false

/-- Go's `strings.EqualFold(s, t)`, for a second argument made of ASCII letters (the only
use in these sources: the literals "websocket" and "enabled"). -/
def EqualFold (s t : String) : Bool :=
  equalFoldRunes s.data t.data

/-- Go's `strings.Join(elems, sep)`. -/
def Join (elems : List String) (sep : String) : String :=
  sep.intercalate elems

/-- Go's `strings.HasPrefix(s, p)`: the string `s` begins with `p`. -/
def HasPrefix (s p : String) : Bool :=
  p.data.isPrefixOf s.data

end strings

namespace sort

/-- Go's `sort.Strings`: the strings in ascending order. Go orders strings bytewise, which
for UTF-8 text is the lexicographic order of their code points. Equal strings cannot be
told apart, so every sorting algorithm returns the same slice; this one inserts. -/
def Strings (x : List String) : List String :=
  x.insertionSort (fun a b => a.data ≤ b.data)

end sort

namespace json

/-- A JSON document, as `encoding/json` writes and reads it. An object lists its members in
the order of the encoding. -/
inductive Value where
  | null
  | bool (b : Bool)
  | number (n : Int)
  | string (s : String)
  | array (xs : List Value)
  | object (members : List (String × Value))

/-- The value of the member `key` of an object, if any. -/
def Value.get? (v : Value) (key : String) : Option Value :=
  match v with
  | Value.object members => members.lookup key
  | _ => none

/-- The member names of an object, in the order of the encoding. -/
def Value.keys (v : Value) : List String :=
  match v with
  | Value.object members => members.map (fun kv => kv.1)
  | _ => []

/-- Insertion of a member into members sorted by name. -/
def insertMember (k : String) (v : Value) : List (String × Value) → List (String × Value)
  | [] => [(k, v)]
  | (k2, v2) :: rest =>
    if k.data ≤ k2.data then (k, v) :: (k2, v2) :: rest
    else (k2, v2) :: insertMember k v rest

mutual

/-- Go's `json.Marshal` of a value that `json.Unmarshal` has decoded into an `interface{}`:
every object has become a `map[string]interface{}`, which is encoded with its keys
sorted. -/
def MarshalDecoded : Value → Value
  | Value.array xs => Value.array (MarshalDecodedList xs)
  | Value.object members => Value.object (MarshalDecodedMembers members)
  | v => v

/-- The elements of an array, each encoded by `MarshalDecoded`. -/
def MarshalDecodedList : List Value → List Value
  | [] => []
  | x :: xs => MarshalDecoded x :: MarshalDecodedList xs

/-- The members of a map, each encoded by `MarshalDecoded`, sorted by key. -/
def MarshalDecodedMembers : List (String × Value) → List (String × Value)
  | [] => []
  | (k, v) :: rest => insertMember k (MarshalDecoded v) (MarshalDecodedMembers rest)

end

/-- The statement `if m, ok := i.(map[string]interface{}); ok { delete(m, key) }` on a
decoded document: an object loses its member `key`, any other value is left as it is. -/
def deleteKey (i : Value) (key : String) : Value :=
  match i with
  | Value.object members => Value.object (members.filter (fun kv => kv.1 != key))
  | v => v

end json

namespace events

/-- Modelled from the spec: the struct `events.MockEventParameters`, whose declaration is
not among the embedded files. Its fields are the request parameters that section 6 of the
spec lists and that `GenerateEvent` of message.go reads. -/
structure MockEventParameters where
  Transport : String
  Trigger : String
  SubscriptionID : String
  SubscriptionStatus : String
  ToUserID : String
  ToUserName : String
  FromUserID : String
  FromUserName : String
  EventMessageID : String
  Timestamp : String

/-- Modelled from the spec: the struct `events.MockEventResponse`, whose declaration is not
among the embedded files, with the fields that `GenerateEvent` of message.go sets. The byte
slice `JSON` is represented by the document it encodes, `none` standing for the nil
slice. -/
structure MockEventResponse where
  ID : String
  JSON : Option json.Value
  FromUser : String
  ToUser : String

end events

namespace rand

/-- The random source `crypto/rand.Reader`: an unbounded sequence of raw draws, read from
position 0 on. -/
def Reader : Type := Nat → Nat

/-- The source once its first `n` draws have been consumed. -/
def Reader.advance (r : Reader) (n : Nat) : Reader :=
  fun i => r (i + n)

/-- Go's `rand.Int(rand.Reader, max)` for a positive `max`: a value of the range 0 to
`max - 1`, every one of which can come out, and the source that remains. -/
def Int (r : Reader) (max : Nat) : Nat × Reader :=
  (r 0 % max, r.advance 1)

/-- Go's `rand.Read(b)` for a slice of `n` bytes: `n` bytes and the source that remains. -/
def Read (r : Reader) (n : Nat) : List Nat × Reader :=
  ((List.range n).map (fun i => r i % 256), r.advance n)

end rand

namespace fmt

/-- Go's `fmt.Sprintf("%x", num)` for an integer: lower-case hexadecimal, with a minus sign
for a negative number. -/
def hexInt (num : Int) : String :=
  if num < 0 then "-" ++ String.mk (Nat.toDigits 16 num.natAbs)
  else String.mk (Nat.toDigits 16 num.toNat)

/-- Go's `fmt.Sprintf("%x", b)` for a byte slice: two lower-case hexadecimal digits for
each byte. -/
def hexBytes (b : List Nat) : String :=
  String.mk (b.flatMap (fun x => [Nat.digitChar (x / 16), Nat.digitChar (x % 16)]))

end fmt

namespace util

/-- The function `RandomUserID` of random.go. -/
def RandomUserID (r : rand.Reader) : String × rand.Reader :=
  let (uid, r1) := rand.Int r (1 * 100 * 100 * 100 * 100)
  (toString uid, r1)

/-- The function `RandomGUID` of random.go. -/
def RandomGUID (r : rand.Reader) : String × rand.Reader :=
  let (b, r1) := rand.Read r 16
  let uuid := fmt.hexBytes (b.take 4) ++ "-" ++ fmt.hexBytes ((b.drop 4).take 2) ++ "-" ++
    fmt.hexBytes ((b.drop 6).take 2) ++ "-" ++ fmt.hexBytes ((b.drop 8).take 2) ++ "-" ++
    fmt.hexBytes (b.drop 10)
  (uuid, r1)

/-- The function `RandomInt` of random.go, for a positive `max`. -/
def RandomInt (r : rand.Reader) (max : Nat) : Int × rand.Reader :=
  let (someInt, r1) := rand.Int r max
  ((someInt : Int), r1)

/-- The struct `RGBColor` of random.go. -/
structure RGBColor where
  Red : Int
  Green : Int
  Blue : Int

/-- The function `RandomColorInRgb` of random.go. -/
def RandomColorInRgb (r : rand.Reader) : RGBColor × rand.Reader :=
  let (Red, r1) := RandomInt r 255
  let (Green, r2) := RandomInt r1 255
  let (blue, r3) := RandomInt r2 255
  ({ Red := Red, Green := Green, Blue := blue }, r3)

/-- The function `getHex` of random.go. -/
def getHex (num : Int) : String :=
  let hex := fmt.hexInt num
  if hex.length = 1 then "0" ++ hex else hex

/-- The function `RandomColorInHex` of random.go. -/
def RandomColorInHex (r : rand.Reader) : String × rand.Reader :=
  let (color, r1) := RandomColorInRgb r
  ("#" ++ getHex color.Red ++ getHex color.Green ++ getHex color.Blue, r1)

/-- A lower-case hexadecimal digit: one of 0 to 9 and a to f. -/
def isLowerHexDigit (c : Char) : Bool :=
  "0123456789abcdef".data.contains c

/-- The value of a hexadecimal digit, 0 for any other character. -/
def hexDigitValue (c : Char) : Nat :=
  if '0' ≤ c ∧ c ≤ '9' then c.toNat - '0'.toNat
  else if 'a' ≤ c ∧ c ≤ 'f' then c.toNat - 'a'.toNat + 10
  else 0

/-- The number that a string of hexadecimal digits denotes, most significant digit first. -/
def hexValue (s : String) : Nat :=
  s.data.foldl (fun acc c => 16 * acc + hexDigitValue c) 0

end util

namespace models

/-- The struct `Cheermote` of channel_chat_message.go. -/
structure Cheermote where
  Prefix : String
  Bits : Int
  Tier : Int

/-- The struct `Emote` of channel_chat_message.go. -/
structure Emote where
  Id : String
  EmoteSetId : String
  OwnerId : String
  Format : List String

/-- The struct `Mention` of channel_chat_message.go. -/
structure Mention where
  UserID : String
  UserName : String
  UserLogin : String

/-- The struct `Fragment` of channel_chat_message.go; a pointer is an option. -/
structure Fragment where
  Type_ : String
  Text : String
  Cheermote : Option Cheermote
  Emote : Option Emote
  Mention : Option Mention

/-- The struct `Message` of channel_chat_message.go. -/
structure Message where
  Text : String
  Fragments : List Fragment

/-- The struct `Badge` of channel_chat_message.go. -/
structure Badge where
  SetID : String
  ID : String
  Info : String

/-- The struct `Cheer` of channel_chat_message.go. -/
structure Cheer where
  Bits : Int

/-- The struct `Reply` of channel_chat_message.go. -/
structure Reply where
  ParentMessageID : String
  ParentMessageBody : String
  ParentUserID : String
  ParentUserName : String
  ParentUserLogin : String
  ThreadMessageId : String
  ThreadUserId : String
  ThreadUserName : String
  ThreadUserLogin : String

/-- The struct `ChannelChatMessageEventSubEvent` of channel_chat_message.go. -/
structure ChannelChatMessageEventSubEvent where
  BroadcasterUserID : String
  BroadcasterUserLogin : String
  BroadcasterUserName : String
  ChatterUserID : String
  ChatterUserLogin : String
  ChatterUserName : String
  MessageID : String
  Message : Message
  Color : String
  Badges : List Badge
  MessageType : String
  Cheer : Option Cheer
  Reply : Option Reply
  ChannelPointsCustomRewardID : Option String
  ChannelPointsAnimationID : Option String

/-- Modelled from the spec: the struct `models.EventsubCondition`, whose declaration is not
among the embedded files, with the two fields that `GenerateEvent` of message.go sets. -/
structure EventsubCondition where
  BroadcasterUserID : String
  UserID : String

/-- Modelled from the spec: the struct `models.EventsubTransport`, whose declaration is not
among the embedded files, with the two fields that `GenerateEvent` of message.go sets. -/
structure EventsubTransport where
  Method : String
  Callback : String

/-- Modelled from the spec: the struct `models.EventsubSubscription`, whose declaration is
not among the embedded files. It is the subscription metadata of section 4.1 of the spec:
id, status, type, version, condition, transport, cost and creation time. -/
structure EventsubSubscription where
  ID : String
  Status : String
  Type_ : String
  Version : String
  Condition : EventsubCondition
  Transport : EventsubTransport
  Cost : Int
  CreatedAt : String

/-- Modelled from the spec: the struct `models.EventsubResponse`, whose declaration is not
among the embedded files: the envelope of section 4.1 of the spec, subscription metadata
wrapping an event body. -/
structure EventsubResponse where
  Subscription : EventsubSubscription
  Event : ChannelChatMessageEventSubEvent

end models

namespace json

open models

/-- The encoding of a pointer: `null` for nil. -/
def encodePointer {α : Type} (encode : α → Value) : Option α → Value
  | none => Value.null
  | some x => encode x

/-- What `json.Marshal` writes for a `Cheermote`, by the tags of its fields. -/
def encodeCheermote (c : Cheermote) : Value :=
  Value.object [("prefix", Value.string c.Prefix), ("bits", Value.number c.Bits),
    ("tier", Value.number c.Tier)]

/-- What `json.Marshal` writes for an `Emote`, by the tags of its fields. -/
def encodeEmote (e : Emote) : Value :=
  Value.object [("id", Value.string e.Id), ("emote_set_id", Value.string e.EmoteSetId),
    ("owner_id", Value.string e.OwnerId),
    ("format", Value.array (e.Format.map Value.string))]

/-- What `json.Marshal` writes for a `Mention`, by the tags of its fields. -/
def encodeMention (m : Mention) : Value :=
  Value.object [("user_id", Value.string m.UserID), ("user_name", Value.string m.UserName),
    ("user_login", Value.string m.UserLogin)]

/-- What `json.Marshal` writes for a `Fragment`, by the tags of its fields. -/
def encodeFragment (f : Fragment) : Value :=
  Value.object [("type", Value.string f.Type_), ("text", Value.string f.Text),
    ("cheermote", encodePointer encodeCheermote f.Cheermote),
    ("emote", encodePointer encodeEmote f.Emote),
    ("mention", encodePointer encodeMention f.Mention)]

/-- What `json.Marshal` writes for a `Message`, by the tags of its fields. -/
def encodeMessage (m : Message) : Value :=
  Value.object [("text", Value.string m.Text),
    ("fragments", Value.array (m.Fragments.map encodeFragment))]

/-- What `json.Marshal` writes for a `Badge`, by the tags of its fields. -/
def encodeBadge (b : Badge) : Value :=
  Value.object [("set_id", Value.string b.SetID), ("id", Value.string b.ID),
    ("info", Value.string b.Info)]

/-- What `json.Marshal` writes for a `Cheer`, by the tag of its field. -/
def encodeCheer (c : Cheer) : Value :=
  Value.object [("bits", Value.number c.Bits)]

/-- What `json.Marshal` writes for a `Reply`, by the tags of its fields. -/
def encodeReply (r : Reply) : Value :=
  Value.object [("parent_message_id", Value.string r.ParentMessageID),
    ("parent_message_body", Value.string r.ParentMessageBody),
    ("parent_user_id", Value.string r.ParentUserID),
    ("parent_user_name", Value.string r.ParentUserName),
    ("parent_user_login", Value.string r.ParentUserLogin),
    ("thread_message_id", Value.string r.ThreadMessageId),
    ("thread_user_id", Value.string r.ThreadUserId),
    ("thread_user_name", Value.string r.ThreadUserName),
    ("thread_user_login", Value.string r.ThreadUserLogin)]

/-- What `json.Marshal` writes for a `ChannelChatMessageEventSubEvent`, by the tags of its
fields. -/
def encodeEvent (e : ChannelChatMessageEventSubEvent) : Value :=
  Value.object [("broadcaster_user_id", Value.string e.BroadcasterUserID),
    ("broadcaster_user_login", Value.string e.BroadcasterUserLogin),
    ("broadcaster_user_name", Value.string e.BroadcasterUserName),
    ("chatter_user_id", Value.string e.ChatterUserID),
    ("chatter_user_login", Value.string e.ChatterUserLogin),
    ("chatter_user_name", Value.string e.ChatterUserName),
    ("message_id", Value.string e.MessageID),
    ("message", encodeMessage e.Message),
    ("color", Value.string e.Color),
    ("badges", Value.array (e.Badges.map encodeBadge)),
    ("message_type", Value.string e.MessageType),
    ("cheer", encodePointer encodeCheer e.Cheer),
    ("reply", encodePointer encodeReply e.Reply),
    ("channel_points_custom_reward_id",
      encodePointer Value.string e.ChannelPointsCustomRewardID),
    ("channel_points_animation_id",
      encodePointer Value.string e.ChannelPointsAnimationID)]

/-- Modelled from the spec: what `json.Marshal` writes for an `EventsubCondition`; the tags
of the struct are not among the embedded files, and the member names follow those of
the event body. -/
def encodeCondition (c : EventsubCondition) : Value :=
  Value.object [("broadcaster_user_id", Value.string c.BroadcasterUserID),
    ("user_id", Value.string c.UserID)]

/-- Modelled from the spec: what `json.Marshal` writes for an `EventsubTransport`; the tags
of the struct are not among the embedded files. -/
def encodeTransport (t : EventsubTransport) : Value :=
  Value.object [("method", Value.string t.Method), ("callback", Value.string t.Callback)]

/-- Modelled from the spec: what `json.Marshal` writes for an `EventsubSubscription`; the
member names are those of the subscription metadata of the spec: id, status, type,
version, condition, transport, cost, created_at. -/
def encodeSubscription (sub : EventsubSubscription) : Value :=
  Value.object [("id", Value.string sub.ID), ("status", Value.string sub.Status),
    ("type", Value.string sub.Type_), ("version", Value.string sub.Version),
    ("condition", encodeCondition sub.Condition),
    ("transport", encodeTransport sub.Transport),
    ("cost", Value.number sub.Cost), ("created_at", Value.string sub.CreatedAt)]

/-- Modelled from the spec: Go's `json.Marshal(body)` for an `EventsubResponse`, a document
with the top-level members "subscription" and "event". It returns no error for a value of
this type. -/
def Marshal (body : EventsubResponse) : Value :=
  Value.object [("subscription", encodeSubscription body.Subscription),
    ("event", encodeEvent body.Event)]

end json

namespace channel_chat

/-- The map `transportsSupported` of message.go. -/
def transportsSupported : List (String × Bool) :=
  [(models.TransportWebhook, true), (models.TransportWebSocket, true)]

/-- The slice `triggerSupported` of message.go. -/
def triggerSupported : List String := ["message"]

/-- The map `triggerMapping` of message.go (transport to trigger to topic). -/
def triggerMapping : List (String × List (String × String)) :=
  [ (models.TransportWebhook, [("message", "channel.chat.message")]),
    (models.TransportWebSocket, [("message", "channel.chat.message")]) ]

/-- The method `Event.ValidTransport`: a map read, `false` for an absent key. -/
def ValidTransport (t : String) : Bool :=
  (transportsSupported.lookup t).getD false

/-- The method `Event.ValidTrigger`: linear search in `triggerSupported`. -/
def ValidTrigger (t : String) : Bool :=
  triggerSupported.any (fun ts => ts == t)

/-- The method `Event.GetTopic`: `triggerMapping[transport][trigger]`. -/
def GetTopic (transport trigger : String) : String :=
  (((triggerMapping.lookup transport).getD []).lookup trigger).getD ""

/-- The method `Event.GetAllTopicsByTransport`: the values of `triggerMapping[transport]`. -/
def GetAllTopicsByTransport (transport : String) : List String :=
  ((triggerMapping.lookup transport).getD []).foldl (fun allTopics kv => allTopics ++ [kv.2]) []

/-- The loop of `Event.GetEventSubAlias` over the entries of a trigger-to-topic map. -/
def aliasIn (t : String) : List (String × String) → String
  | [] => ""
  | (trigger, topic) :: rest => if topic = t then trigger else aliasIn t rest

/-- The method `Event.GetEventSubAlias`: the trigger whose webhook topic is `t`. -/
def GetEventSubAlias (t : String) : String :=
  aliasIn t ((triggerMapping.lookup models.TransportWebhook).getD [])

/-- The method `Event.SubscriptionVersion`. -/
def SubscriptionVersion : String := "1"

/-- The variable `body` of `Event.GenerateEvent`: the envelope built from the request, with
the message id and the colour drawn for the event body. -/
def body (params : events.MockEventParameters) (messageID color : String) :
    models.EventsubResponse :=
  { Subscription :=
      { ID := params.SubscriptionID
        Status := params.SubscriptionStatus
        Type_ := (((triggerMapping.lookup params.Transport).getD []).lookup
          params.Trigger).getD ""
        Version := SubscriptionVersion
        Condition :=
          { BroadcasterUserID := params.ToUserID
            UserID := params.FromUserID }
        Transport :=
          { Method := "webhook"
            Callback := "null" }
        Cost := 0
        CreatedAt := params.Timestamp }
    Event :=
      { BroadcasterUserID := params.ToUserID
        BroadcasterUserLogin := params.ToUserName
        BroadcasterUserName := params.ToUserName
        ChatterUserID := params.FromUserID
        ChatterUserLogin := params.FromUserName
        ChatterUserName := params.FromUserName
        MessageID := messageID
        Message :=
          { Text := "Test chat message from CLI!"
            Fragments := [] }
        Color := color
        Badges := []
        MessageType := "text"
        Cheer := none
        Reply := none
        ChannelPointsCustomRewardID := none
        ChannelPointsAnimationID := none } }

/-- The method `Event.GenerateEvent`. The message id and the colour of the event body are
drawn from the random source `r`, in this order. Neither `json.Marshal` nor
`json.Unmarshal` fails on the documents of this function, so that its three
`return events.MockEventResponse{}, err` are never reached. -/
def GenerateEvent (params : events.MockEventParameters) (r : rand.Reader) :
    events.MockEventResponse × Option String :=
  if params.Transport = models.TransportWebhook
      ∨ params.Transport = models.TransportWebSocket then
    let (messageID, r1) := util.RandomGUID r
    let (color, _) := util.RandomColorInHex r1
    let event := json.Marshal (body params messageID color)
    let event :=
      if (!strings.EqualFold params.SubscriptionStatus "enabled") = true then
        json.MarshalDecoded (json.deleteKey event "event")
      else event
    ({ ID := params.EventMessageID
       JSON := some event
       FromUser := params.ToUserID
       ToUser := params.ToUserID }, none)
  else
    ({ ID := "", JSON := none, FromUser := "", ToUser := "" }, none)

/-- The descriptor `channel_chat.Event{}` seen through the `MockEvent` interface. -/
def Event : events.MockEvent :=
  { ValidTransport := ValidTransport
    ValidTrigger := ValidTrigger
    GetTopic := GetTopic
    GetAllTopicsByTransport := GetAllTopicsByTransport
    GetEventSubAlias := GetEventSubAlias
    SubscriptionVersion := SubscriptionVersion }

end channel_chat

namespace types

open events

/-- The variables that the loops of `AllWebhookTopics` update. -/
structure TopicState where
  /-- The slice `allEvents`: the topics collected so far, in order of first occurrence. -/
  allEvents : List String
  /-- The map `allEventsMap`: the topics collected so far, each mapped to 1. -/
  allEventsMap : List (String × Int)

/-- The inner loop of `AllWebhookTopics`, over the topics of one descriptor. -/
def addTopics : List String → TopicState → TopicState
  | [], s => s
  | topic :: rest, s =>
    let duplicate := (s.allEventsMap.lookup topic).isSome
    if !duplicate then
      addTopics rest
        { allEvents := s.allEvents ++ [topic]
          allEventsMap := (topic, 1) :: s.allEventsMap }
    else
      addTopics rest s

/-- The outer loop of `AllWebhookTopics`, over the catalog. -/
def collectTopics : List MockEvent → TopicState → TopicState
  | [], s => s
  | e :: rest, s =>
    collectTopics rest (addTopics (e.GetAllTopicsByTransport models.TransportWebhook) s)

/-- The function `AllWebhookTopics`, over the catalog `AllEvents`. -/
def AllWebhookTopics (AllEvents : List MockEvent) : List String :=
  sort.Strings (collectTopics AllEvents { allEvents := [], allEventsMap := [] }).allEvents

/-- The inner loop of `WebSocketCommandTopics`, over the topics of one descriptor. -/
def addCommandTopics : List String → List String → List String
  | [], allEvents => allEvents
  | topic :: rest, allEvents =>
    if strings.HasPrefix topic "websocket" = true then
      addCommandTopics rest (allEvents ++ [topic])
    else
      addCommandTopics rest allEvents

/-- The outer loop of `WebSocketCommandTopics`, over the catalog. -/
def collectCommandTopics : List MockEvent → List String → List String
  | [], allEvents => allEvents
  | e :: rest, allEvents =>
    collectCommandTopics rest
      (addCommandTopics (e.GetAllTopicsByTransport models.TransportWebSocket) allEvents)

/-- The function `WebSocketCommandTopics`, over the catalog `AllEvents`. -/
def WebSocketCommandTopics (AllEvents : List MockEvent) : List String :=
  sort.Strings (collectCommandTopics AllEvents [])

/-- The variables that the loop of `GetByTriggerAndTransportAndVersion` updates. -/
structure ScanState where
  /-- The working trigger (the parameter `trigger`, reassigned by an alias rewrite). -/
  trigger : String
  /-- Versions of the descriptors that matched trigger and transport only. -/
  validEventBadVersions : List String
  /-- The last descriptor that matched trigger and transport only (`nil` at first). -/
  latestEventSeen : Option MockEvent

/-- How the loop of `GetByTriggerAndTransportAndVersion` ends: by its `return e, nil`
or by running off the end of the catalog. -/
inductive ScanResult where
  | returned (e : MockEvent)
  | fellThrough (s : ScanState)

/-- The alias step at the head of the loop body: the working trigger after descriptor `e`
has been asked for an alias. -/
def rewriteTrigger (transport : String) (e : MockEvent) (trigger : String) : String :=
  if transport = models.TransportWebhook ∨ transport = models.TransportWebSocket then
    if e.GetEventSubAlias trigger ≠ "" then e.GetEventSubAlias trigger else trigger
  else trigger

/-- The `for _, e := range AllEvents()` loop of `GetByTriggerAndTransportAndVersion`. -/
def scanEvents (transport version : String) : List MockEvent → ScanState → ScanResult
  | [], s => ScanResult.fellThrough s
  | e :: rest, s =>
    let trigger := rewriteTrigger transport e s.trigger
    if e.ValidTrigger trigger = true ∧ e.ValidTransport transport = true then
      if e.SubscriptionVersion = version then
        ScanResult.returned e
      else
        scanEvents transport version rest
          { trigger := trigger
            validEventBadVersions := s.validEventBadVersions ++ [e.SubscriptionVersion]
            latestEventSeen := some e }
    else
      scanEvents transport version rest { s with trigger := trigger }

/-- The message of the error for a version that is absent or does not exist. -/
def invalidVersionError (validEventBadVersions : List String) (version : String) : String :=
  let errStr := "Invalid version given. Valid version(s): " ++
    strings.Join validEventBadVersions ", "
  if version = "" then errStr ++ "\nUse --version to specify" else errStr

/-- The message of the error for the websocket transport. -/
def webSocketError : String :=
  "Invalid event, or this event is not available via WebSockets."

/-- The message of the default error. -/
def invalidEventError : String := "Invalid event"

/-- The function `GetByTriggerAndTransportAndVersion`, over the catalog `AllEvents`. -/
def GetByTriggerAndTransportAndVersion (AllEvents : List MockEvent)
    (trigger transport version : String) : Option MockEvent × Option String :=
  match scanEvents transport version AllEvents
      { trigger := trigger, validEventBadVersions := [], latestEventSeen := none } with
  | ScanResult.returned e => (some e, none)
  | ScanResult.fellThrough s =>
    if version = "" ∧ s.validEventBadVersions.length = 1 then
      (s.latestEventSeen, none)
    else if s.validEventBadVersions.length ≠ 0 then
      (none, some (invalidVersionError s.validEventBadVersions version))
    else if strings.EqualFold transport "websocket" = true then
      (none, some webSocketError)
    else
      (none, some invalidEventError)

/-! ## Notions used in the statements -/

/-- Descriptor `e` passes the test `e.ValidTrigger(trigger) && e.ValidTransport(transport)`. -/
def accepts (e : MockEvent) (trigger transport : String) : Bool :=
  e.ValidTrigger trigger && e.ValidTransport transport

/-- Descriptor `e` rewrites the working trigger: the transport is "webhook" or "websocket"
and `e.GetEventSubAlias(trigger)` is not empty. -/
def aliasFires (transport : String) (e : MockEvent) (trigger : String) : Bool :=
  (transport == models.TransportWebhook || transport == models.TransportWebSocket)
    && e.GetEventSubAlias trigger != ""

/-- The working trigger once the scan has gone through `l`. -/
def finalTrigger (transport : String) : List MockEvent → String → String
  | [], trigger => trigger
  | e :: rest, trigger => finalTrigger transport rest (rewriteTrigger transport e trigger)

/-- The descriptors of `l` that pass the trigger and transport test for the working trigger
they are tested with, in catalog order. -/
def candidates (transport : String) : List MockEvent → String → List MockEvent
  | [], _ => []
  | e :: rest, trigger =>
    if accepts e (rewriteTrigger transport e trigger) transport = true then
      e :: candidates transport rest (rewriteTrigger transport e trigger)
    else
      candidates transport rest (rewriteTrigger transport e trigger)

/-- The working trigger that each descriptor of `l` is tested with, in catalog order: the
trigger left by the descriptors before it, rewritten by its own alias step. -/
def workingTriggers (transport : String) : List MockEvent → String → List String
  | [], _ => []
  | e :: rest, trigger =>
    rewriteTrigger transport e trigger ::
      workingTriggers transport rest (rewriteTrigger transport e trigger)

/-- What the resolver does once its loop has collected the descriptors `cands`, none of
them with the requested version. -/
def afterScan (cands : List MockEvent) (transport version : String) :
    Option MockEvent × Option String :=
  if version = "" ∧ cands.length = 1 then
    (cands.getLast?, none)
  else if cands.length ≠ 0 then
    (none, some (invalidVersionError (cands.map (fun e => e.SubscriptionVersion)) version))
  else if strings.EqualFold transport "websocket" = true then
    (none, some webSocketError)
  else
    (none, some invalidEventError)

/-- The slice and the map of `AllWebhookTopics` hold the same topics, the slice once each. -/
def TopicState.consistent (s : TopicState) : Prop :=
  s.allEvents.Nodup ∧ ∀ k, (s.allEventsMap.lookup k).isSome = true ↔ k ∈ s.allEvents

/-! ## Descriptors for example catalogs -/

/-- A descriptor built the way `channel_chat.Event` is, from the three tables and the
version that a descriptor package declares. It serves to write down catalogs with more
than one descriptor. -/
def descriptorOf (transportsSupported : List (String × Bool)) (triggerSupported : List String)
    (triggerMapping : List (String × List (String × String))) (version : String) : MockEvent :=
  { ValidTransport := fun t => (transportsSupported.lookup t).getD false
    ValidTrigger := fun t => triggerSupported.any (fun ts => ts == t)
    GetTopic := fun transport trigger =>
      (((triggerMapping.lookup transport).getD []).lookup trigger).getD ""
    GetAllTopicsByTransport := fun transport =>
      ((triggerMapping.lookup transport).getD []).foldl (fun allTopics kv => allTopics ++ [kv.2]) []
    GetEventSubAlias := fun t =>
      channel_chat.aliasIn t ((triggerMapping.lookup models.TransportWebhook).getD [])
    SubscriptionVersion := version }

/-- A request for the trigger "message" with the given subscription status and transport,
from the user 7 to the user 42. -/
def sampleRequest (status transport : String) : MockEventParameters :=
  { Transport := transport
    Trigger := "message"
    SubscriptionID := "5d1e2c74-0000-4000-8000-000000000001"
    SubscriptionStatus := status
    ToUserID := "42"
    ToUserName := "broadcaster"
    FromUserID := "7"
    FromUserName := "chatter"
    EventMessageID := "9f3b6a10-0000-4000-8000-000000000002"
    Timestamp := "2024-01-01T00:00:00Z" }

/-- A random source for examples: the draws 0, 1, 2 and so on. -/
def countingReader : rand.Reader := fun i => i

/-- A webhook-only descriptor that maps the trigger "message" to the topic
"channel.chat.message", as `channel_chat.Event` does, but supports no trigger at all: it
recognizes the topic as an alias of a trigger that it does not accept. -/
def aliasOnly : MockEvent :=
  descriptorOf [("webhook", true)] [] [("webhook", [("message", "channel.chat.message")])] "1"

/-- A webhook-only descriptor that supports the trigger "message" and whose map gives the
topic string "message" to another trigger, "msg", which it does not support. -/
def relabel : MockEvent :=
  descriptorOf [("webhook", true)] ["message"] [("webhook", [("msg", "message")])] "1"

/-- A webhook-only descriptor without triggers whose map gives the topic string "message"
to the trigger "channel.chat.message": it recognizes "message" as an alias of
"channel.chat.message". -/
def mirror : MockEvent :=
  descriptorOf [("webhook", true)] [] [("webhook", [("channel.chat.message", "message")])] "1"

/-- A descriptor that supports the trigger "message" on the websocket transport only. -/
def websocketChat : MockEvent :=
  descriptorOf [("websocket", true)] ["message"]
    [("websocket", [("message", "channel.chat.message")])] "1"

/-- A webhook-only descriptor that answers to the trigger "message" with version "1", as
`channel_chat.Event` does. -/
def chatTwin : MockEvent :=
  descriptorOf [("webhook", true)] ["message"]
    [("webhook", [("message", "channel.chat.message")])] "1"

/-- A webhook-only descriptor of the given version whose short trigger name is the string
"channel.chat.message", the canonical topic of `channel_chat.Event`. -/
def topicNamed (version : String) : MockEvent :=
  descriptorOf [("webhook", true)] ["channel.chat.message"]
    [("webhook", [("channel.chat.message", "channel.chat.message.v" ++ version)])] version

/-- A webhook-only descriptor that maps a trigger of its own, "chat", to the canonical topic
"channel.chat.message" of `channel_chat.Event`. -/
def chatAlt : MockEvent :=
  descriptorOf [("webhook", true)] ["chat"]
    [("webhook", [("chat", "channel.chat.message")])] "1"

/-- A webhook-only descriptor whose trigger "msg" has the topic string "message", the short
trigger name of `channel_chat.Event`. -/
def messageTopic : MockEvent :=
  descriptorOf [("webhook", true)] ["msg"] [("webhook", [("msg", "message")])] "1"

/-- A descriptor that answers to the trigger "message" and whose transport table spells its
only transport in capitals, "WEBSOCKET". -/
def capitalsChat : MockEvent :=
  descriptorOf [("WEBSOCKET", true)] ["message"]
    [("WEBSOCKET", [("message", "channel.chat.message")])] "1"

/-- A webhook-only descriptor with two triggers, whose trigger-to-topic map is enumerated
in the order given by `entries`. -/
def moderatorChange (entries : List (String × String)) : MockEvent :=
  descriptorOf [("webhook", true)] ["add-moderator", "remove-moderator"]
    [("webhook", entries)] "1"

/-- A descriptor of the given version that answers to the trigger "stream-change" on both
transports, with the topic "channel.update": two of them, of versions "1" and "2", make a
family with two versions. -/
def streamChange (version : String) : MockEvent :=
  descriptorOf [("webhook", true), ("websocket", true)] ["stream-change"]
    [("webhook", [("stream-change", "channel.update")]),
     ("websocket", [("stream-change", "channel.update")])] version

/-! ## The resolver in terms of its candidates -/

theorem rewriteTrigger_of_not_aliasFires {transport : String} {e : MockEvent} {trigger : String}
    (h : aliasFires transport e trigger = false) : rewriteTrigger transport e trigger = trigger := by
  unfold rewriteTrigger
  unfold aliasFires at h
  by_cases ht : transport = models.TransportWebhook ∨ transport = models.TransportWebSocket
  · rw [if_pos ht]
    have h1 : (transport == models.TransportWebhook || transport == models.TransportWebSocket)
        = true := by
      rcases ht with ht | ht <;> simp [ht]
    rw [h1] at h
    have h2 : e.GetEventSubAlias trigger = "" := by simpa using h
    simp [h2]
  · rw [if_neg ht]

/-- The loop computes the candidates: it returns the first of them that carries the
requested version, and otherwise falls through with their versions and the last of them. -/
theorem scanEvents_eq (transport version : String) (l : List MockEvent) (s : ScanState) :
    scanEvents transport version l s =
      match (candidates transport l s.trigger).find? (fun e => decide (e.SubscriptionVersion = version)) with
      | some d => ScanResult.returned d
      | none => ScanResult.fellThrough
          { trigger := finalTrigger transport l s.trigger
            validEventBadVersions := s.validEventBadVersions ++
              (candidates transport l s.trigger).map (fun e => e.SubscriptionVersion)
            latestEventSeen :=
              match (candidates transport l s.trigger).getLast? with
              | some d => some d
              | none => s.latestEventSeen } := by
  induction l generalizing s with
  | nil => simp [scanEvents, candidates, finalTrigger]
  | cons e rest ih =>
    simp only [scanEvents, candidates, finalTrigger, accepts, Bool.and_eq_true]
    by_cases hacc : e.ValidTrigger (rewriteTrigger transport e s.trigger) = true
        ∧ e.ValidTransport transport = true
    · rw [if_pos hacc, if_pos hacc]
      by_cases hv : e.SubscriptionVersion = version
      · simp [hv]
      · rw [if_neg hv, ih]
        simp only [List.find?_cons, hv, decide_False, List.map_cons, List.append_assoc,
          List.singleton_append]
        cases hfind : List.find? (fun e => decide (e.SubscriptionVersion = version))
            (candidates transport rest (rewriteTrigger transport e s.trigger)) with
        | some d => rfl
        | none =>
          simp only
          cases hc : candidates transport rest (rewriteTrigger transport e s.trigger) with
          | nil => simp
          | cons c cs =>
            simp only [List.getLast?_cons_cons]
            cases hl : (c :: cs).getLast? with
            | some d => rfl
            | none => simp at hl
    · rw [if_neg hacc, if_neg hacc, ih]

/-- The resolver in terms of the candidates. -/
theorem resolve_eq (AllEvents : List MockEvent) (trigger transport version : String) :
    GetByTriggerAndTransportAndVersion AllEvents trigger transport version =
      match (candidates transport AllEvents trigger).find?
          (fun e => decide (e.SubscriptionVersion = version)) with
      | some d => (some d, none)
      | none => afterScan (candidates transport AllEvents trigger) transport version := by
  unfold GetByTriggerAndTransportAndVersion
  rw [scanEvents_eq]
  cases hfind : List.find? (fun e => decide (e.SubscriptionVersion = version))
      (candidates transport AllEvents trigger) with
  | some d => rfl
  | none =>
    simp only [afterScan, List.nil_append, List.length_map]
    cases hc : (candidates transport AllEvents trigger).getLast? with
    | some d => rfl
    | none =>
      have : candidates transport AllEvents trigger = [] := by
        simpa using hc
      simp [this]

theorem aliasFires_of_alias_empty (transport : String) {e : MockEvent} {trigger : String}
    (h : e.GetEventSubAlias trigger = "") : aliasFires transport e trigger = false := by
  simp [aliasFires, h]

/-- Without candidates the resolver fails with one of its two fixed errors. -/
theorem afterScan_nil (transport version : String) :
    afterScan [] transport version =
      (none, some (if strings.EqualFold transport "websocket" = true then webSocketError
        else invalidEventError)) := by
  by_cases c : strings.EqualFold transport "websocket" = true <;> simp [afterScan, c]

theorem candidates_append_of_no_alias (transport trigger : String) (pre rest : List MockEvent)
    (hal : ∀ e ∈ pre, aliasFires transport e trigger = false) :
    candidates transport (pre ++ rest) trigger =
      pre.filter (fun e => accepts e trigger transport) ++ candidates transport rest trigger := by
  induction pre with
  | nil => simp
  | cons e pre ih =>
    have he : rewriteTrigger transport e trigger = trigger :=
      rewriteTrigger_of_not_aliasFires (hal e (List.mem_cons_self _ _))
    have ih2 := ih (fun x hx => hal x (List.mem_cons_of_mem _ hx))
    simp only [List.cons_append, candidates, he, List.filter_cons]
    by_cases hacc : accepts e trigger transport = true
    · simp [hacc, ih2]
    · simp [hacc, ih2]

theorem candidates_of_no_alias (transport trigger : String) (l : List MockEvent)
    (hal : ∀ e ∈ l, aliasFires transport e trigger = false) :
    candidates transport l trigger = l.filter (fun e => accepts e trigger transport) := by
  have h := candidates_append_of_no_alias transport trigger l [] hal
  simpa [candidates] using h

/-- In a scan where no alias rewrite fires up to a descriptor that passes the three tests,
and no earlier descriptor passes them, that descriptor is returned. -/
theorem resolve_first_match (pre post : List MockEvent) (d : MockEvent)
    (trigger transport version : String)
    (hal : ∀ e ∈ pre ++ [d], aliasFires transport e trigger = false)
    (hpre : ∀ e ∈ pre, ¬ (accepts e trigger transport = true ∧ e.SubscriptionVersion = version))
    (hd : accepts d trigger transport = true) (hv : d.SubscriptionVersion = version) :
    GetByTriggerAndTransportAndVersion (pre ++ d :: post) trigger transport version
      = (some d, none) := by
  have hsplit : pre ++ d :: post = (pre ++ [d]) ++ post := by simp
  have hnone : List.find? (fun e => decide (e.SubscriptionVersion = version))
      (pre.filter (fun e => accepts e trigger transport)) = none := by
    rw [List.find?_eq_none]
    intro e he
    rw [List.mem_filter] at he
    have := hpre e he.1
    simp only [decide_eq_true_eq]
    intro hver
    exact this ⟨he.2, hver⟩
  rw [resolve_eq, hsplit, candidates_append_of_no_alias transport trigger (pre ++ [d]) post hal,
    List.filter_append, List.append_assoc, List.find?_append, hnone]
  simp [List.filter_cons, hd, hv]

/-- The only descriptor of a list that passes the trigger and transport test is what the
filter keeps. -/
theorem filter_accepts_single (pre post : List MockEvent) (d : MockEvent)
    (trigger transport : String) (hd : accepts d trigger transport = true)
    (honly : ∀ e ∈ pre ++ post, accepts e trigger transport = false) :
    (pre ++ d :: post).filter (fun e => accepts e trigger transport) = [d] := by
  have hpre : pre.filter (fun e => accepts e trigger transport) = [] := by
    rw [List.filter_eq_nil_iff]
    intro e he
    simp [honly e (List.mem_append_left _ he)]
  have hpost : post.filter (fun e => accepts e trigger transport) = [] := by
    rw [List.filter_eq_nil_iff]
    intro e he
    simp [honly e (List.mem_append_right _ he)]
  simp [List.filter_append, List.filter_cons, hpre, hpost, hd]

/-! ## The topic index -/

theorem addTopics_spec (topics : List String) (s : TopicState) (hs : s.consistent) :
    (addTopics topics s).consistent
      ∧ ∀ k, k ∈ (addTopics topics s).allEvents ↔ (k ∈ s.allEvents ∨ k ∈ topics) := by
  induction topics generalizing s with
  | nil => simp [addTopics, hs]
  | cons topic rest ih =>
    simp only [addTopics]
    by_cases hdup : (s.allEventsMap.lookup topic).isSome = true
    · have hmem : topic ∈ s.allEvents := (hs.2 topic).1 hdup
      simp only [hdup, Bool.not_true, Bool.false_eq_true, if_false]
      refine ⟨(ih s hs).1, ?_⟩
      intro k
      rw [(ih s hs).2 k, List.mem_cons]
      constructor
      · rintro (h | h)
        · exact Or.inl h
        · exact Or.inr (Or.inr h)
      · rintro (h | h | h)
        · exact Or.inl h
        · exact Or.inl (h ▸ hmem)
        · exact Or.inr h
    · have hnot : topic ∉ s.allEvents := fun h => hdup ((hs.2 topic).2 h)
      have hs2 : TopicState.consistent
          { allEvents := s.allEvents ++ [topic], allEventsMap := (topic, 1) :: s.allEventsMap } := by
        constructor
        · simp only
          rw [List.nodup_append]
          refine ⟨hs.1, List.nodup_singleton _, ?_⟩
          intro a ha hb
          rw [List.mem_singleton] at hb
          exact hnot (hb ▸ ha)
        · intro k
          simp only [List.lookup_cons, List.mem_append, List.mem_singleton]
          by_cases hk : k = topic
          · simp [hk]
          · have hk2 : (k == topic) = false := by simpa using hk
            simp only [hk2, hk, or_false]
            exact hs.2 k
      simp only [Bool.not_eq_true] at hdup
      simp only [hdup, Bool.not_false, if_true]
      refine ⟨(ih _ hs2).1, ?_⟩
      intro k
      rw [(ih _ hs2).2 k]
      simp only [List.mem_append, List.mem_singleton, List.mem_cons]
      tauto

theorem collectTopics_spec (l : List MockEvent) (s : TopicState) (hs : s.consistent) :
    (collectTopics l s).consistent
      ∧ ∀ k, k ∈ (collectTopics l s).allEvents ↔
          (k ∈ s.allEvents ∨ ∃ e ∈ l, k ∈ e.GetAllTopicsByTransport models.TransportWebhook) := by
  induction l generalizing s with
  | nil => simp [collectTopics, hs]
  | cons e rest ih =>
    simp only [collectTopics]
    have h1 := addTopics_spec (e.GetAllTopicsByTransport models.TransportWebhook) s hs
    have h2 := ih _ h1.1
    refine ⟨h2.1, ?_⟩
    intro k
    rw [h2.2 k, h1.2 k]
    simp only [List.mem_cons, exists_eq_or_imp]
    tauto

theorem mem_AllWebhookTopics (AllEvents : List MockEvent) (k : String) :
    k ∈ AllWebhookTopics AllEvents ↔
      ∃ e ∈ AllEvents, k ∈ e.GetAllTopicsByTransport models.TransportWebhook := by
  have h := collectTopics_spec AllEvents { allEvents := [], allEventsMap := [] }
    ⟨List.nodup_nil, by simp⟩
  unfold AllWebhookTopics sort.Strings
  rw [(List.perm_insertionSort _ _).mem_iff, h.2 k]
  simp

theorem nodup_AllWebhookTopics (AllEvents : List MockEvent) :
    (AllWebhookTopics AllEvents).Nodup := by
  have h := collectTopics_spec AllEvents { allEvents := [], allEventsMap := [] }
    ⟨List.nodup_nil, by simp⟩
  unfold AllWebhookTopics sort.Strings
  exact (List.perm_insertionSort _ _).nodup_iff.2 h.1.1

theorem sorted_le_AllWebhookTopics (AllEvents : List MockEvent) :
    List.Sorted (fun a b : String => a.data ≤ b.data) (AllWebhookTopics AllEvents) := by
  unfold AllWebhookTopics sort.Strings
  haveI : IsTotal String (fun a b : String => a.data ≤ b.data) :=
    ⟨fun a b => le_total a.data b.data⟩
  haveI : IsTrans String (fun a b : String => a.data ≤ b.data) :=
    ⟨fun a b c h1 h2 => le_trans h1 h2⟩
  exact List.sorted_insertionSort _ _

theorem sorted_lt_AllWebhookTopics (AllEvents : List MockEvent) :
    List.Sorted (fun a b : String => a < b) (AllWebhookTopics AllEvents) := by
  have h1 := sorted_le_AllWebhookTopics AllEvents
  have h2 := nodup_AllWebhookTopics AllEvents
  unfold List.Sorted at h1 ⊢
  unfold List.Nodup at h2
  have h3 := h1.and h2
  refine h3.imp ?_
  intro a b hab
  rw [String.lt_iff_toList_lt]
  have hne : a.data ≠ b.data := fun h => hab.2 (String.ext h)
  exact lt_of_le_of_ne hab.1 hne

/-- Two catalogs that expose the same webhook topics have the same topic index. -/
theorem AllWebhookTopics_congr (l1 l2 : List MockEvent)
    (h : ∀ k, (∃ e ∈ l1, k ∈ e.GetAllTopicsByTransport models.TransportWebhook) ↔
      (∃ e ∈ l2, k ∈ e.GetAllTopicsByTransport models.TransportWebhook)) :
    AllWebhookTopics l1 = AllWebhookTopics l2 := by
  have hperm : (AllWebhookTopics l1).Perm (AllWebhookTopics l2) := by
    rw [List.perm_ext_iff_of_nodup (nodup_AllWebhookTopics l1) (nodup_AllWebhookTopics l2)]
    intro k
    rw [mem_AllWebhookTopics, mem_AllWebhookTopics, h k]
  haveI : IsAntisymm String (fun a b : String => a.data ≤ b.data) :=
    ⟨fun a b h1 h2 => String.ext (le_antisymm h1 h2)⟩
  exact List.eq_of_perm_of_sorted hperm (sorted_le_AllWebhookTopics l1)
    (sorted_le_AllWebhookTopics l2)

/-! ## The example descriptors differ from `channel_chat.Event` -/

/-- The hint is not the empty string: a message with the hint appended differs from the
message without it. -/
theorem append_hint_ne (s : String) : s ++ "\nUse --version to specify" ≠ s := by
  intro h
  have h2 := congrArg String.length h
  rw [String.length_append] at h2
  have h3 : ("\nUse --version to specify" : String).length = 25 := rfl
  rw [h3] at h2
  omega

/-- An error of the resolver other than its two fixed errors is the invalid-version error
for the versions of the candidates; it comes with no descriptor, and there is at least
one candidate. -/
theorem resolve_error_cases (AllEvents : List MockEvent)
    (trigger transport version msg : String)
    (herr : (GetByTriggerAndTransportAndVersion AllEvents trigger transport version).2 = some msg)
    (hws : msg ≠ webSocketError) (hdef : msg ≠ invalidEventError) :
    (GetByTriggerAndTransportAndVersion AllEvents trigger transport version).1 = none
      ∧ candidates transport AllEvents trigger ≠ []
      ∧ msg = invalidVersionError
          ((candidates transport AllEvents trigger).map (fun e => e.SubscriptionVersion))
          version := by
  rw [resolve_eq] at herr ⊢
  cases hfind : List.find? (fun e => decide (e.SubscriptionVersion = version))
      (candidates transport AllEvents trigger) with
  | some d => rw [hfind] at herr; simp at herr
  | none =>
    rw [hfind] at herr
    simp only [afterScan] at herr ⊢
    by_cases c1 : version = "" ∧ (candidates transport AllEvents trigger).length = 1
    · rw [if_pos c1] at herr
      simp at herr
    · rw [if_neg c1] at herr ⊢
      by_cases c2 : (candidates transport AllEvents trigger).length ≠ 0
      · rw [if_pos c2] at herr ⊢
        refine ⟨rfl, fun hnil => c2 (by rw [hnil]; rfl), (Option.some.inj herr).symm⟩
      · rw [if_neg c2] at herr
        by_cases c3 : strings.EqualFold transport "websocket" = true
        · rw [if_pos c3] at herr
          exact absurd (Option.some.inj herr).symm hws
        · rw [if_neg c3] at herr
          exact absurd (Option.some.inj herr).symm hdef

theorem channel_chat_ne_topicNamed (version : String) :
    channel_chat.Event ≠ topicNamed version := by
  intro h
  have h2 : true = false := congrArg (fun e => e.ValidTransport "websocket") h
  exact Bool.noConfusion h2

end types

/-! ## The claims -/

open events types

/-- For every descriptor `d` of a catalog `pre ++ d :: post`, every trigger `t` with
`d.ValidTrigger t` and every transport `tr` with `d.ValidTransport tr`, provided that no
descriptor up to and including `d` rewrites `t` through an alias and that no descriptor
before `d` accepts `t` and `tr` with the version of `d`, the resolver called with
`(t, tr, d.SubscriptionVersion)` returns exactly `d` with no error. -/
theorem resolve_returns_own_descriptor (pre post : List MockEvent) (d : MockEvent)
    (t tr : String)
    (ht : d.ValidTrigger t = true) (htr : d.ValidTransport tr = true)
    (hal : ∀ e ∈ pre ++ [d], aliasFires tr e t = false)
    (hfirst : ∀ e ∈ pre, ¬ (e.ValidTrigger t = true ∧ e.ValidTransport tr = true
      ∧ e.SubscriptionVersion = d.SubscriptionVersion)) :
    GetByTriggerAndTransportAndVersion (pre ++ d :: post) t tr d.SubscriptionVersion
      = (some d, none) := by
  apply resolve_first_match pre post d t tr d.SubscriptionVersion hal
  · intro e he hacc
    apply hfirst e he
    simpa [accepts, and_assoc] using hacc
  · simp [accepts, ht, htr]
  · rfl

/-- The channel_chat descriptor, alone in the catalog, is returned for its trigger
"message", each of its two transports and its version "1". -/
theorem resolve_returns_channel_chat :
    GetByTriggerAndTransportAndVersion ([] ++ channel_chat.Event :: [])
        "message" "webhook" channel_chat.Event.SubscriptionVersion
        = (some channel_chat.Event, none)
      ∧ GetByTriggerAndTransportAndVersion ([] ++ channel_chat.Event :: [])
        "message" "websocket" channel_chat.Event.SubscriptionVersion
        = (some channel_chat.Event, none) :=
  ⟨resolve_returns_own_descriptor [] [] channel_chat.Event "message" "webhook" rfl rfl
      (by
        intro e he
        simp only [List.nil_append, List.mem_singleton] at he
        subst he
        rfl)
      (by
        intro e he
        exact absurd he (List.not_mem_nil e)),
    resolve_returns_own_descriptor [] [] channel_chat.Event "message" "websocket" rfl rfl
      (by
        intro e he
        simp only [List.nil_append, List.mem_singleton] at he
        subst he
        rfl)
      (by
        intro e he
        exact absurd he (List.not_mem_nil e))⟩

/-- C2: for every catalog and every (trigger, transport, version) for which no alias rewrite
fires up to the first descriptor `d` that satisfies `ValidTrigger`, `ValidTransport` and
`SubscriptionVersion = version` (no descriptor of `pre` satisfies the three), the
resolver returns `d`, which is the first such descriptor in catalog order, with no error,
whatever the later descriptors `post` are. -/
theorem C2_first_full_match_wins (pre post : List MockEvent) (d : MockEvent)
    (trigger transport version : String)
    (hal : ∀ e ∈ pre ++ [d], aliasFires transport e trigger = false)
    (hpre : ∀ e ∈ pre, ¬ (e.ValidTrigger trigger = true ∧ e.ValidTransport transport = true
      ∧ e.SubscriptionVersion = version))
    (hd : d.ValidTrigger trigger = true ∧ d.ValidTransport transport = true
      ∧ d.SubscriptionVersion = version) :
    (pre ++ d :: post).find? (fun e => e.ValidTrigger trigger && e.ValidTransport transport
        && decide (e.SubscriptionVersion = version)) = some d
      ∧ GetByTriggerAndTransportAndVersion (pre ++ d :: post) trigger transport version
        = (some d, none) := by
  constructor
  · rw [List.find?_append]
    have hnone : pre.find? (fun e => e.ValidTrigger trigger && e.ValidTransport transport
        && decide (e.SubscriptionVersion = version)) = none := by
      rw [List.find?_eq_none]
      intro e he
      have := hpre e he
      simpa [and_assoc] using this
    rw [hnone]
    simp [hd.1, hd.2.1, hd.2.2]
  · apply resolve_first_match pre post d trigger transport version hal
    · intro e he hacc
      apply hpre e he
      simpa [accepts, and_assoc] using hacc
    · simp [accepts, hd.1, hd.2.1]
    · exact hd.2.2

/-- Witness of C2: in the catalog `[topicNamed "2", channel_chat.Event, chatTwin]` the
request ("message", "webhook", "1") returns `channel_chat.Event`, the first of the two
descriptors that match it. -/
theorem C2_first_full_match_wins_witness :
    ([topicNamed "2"] ++ channel_chat.Event :: [chatTwin]).find?
        (fun e => e.ValidTrigger "message" && e.ValidTransport "webhook"
          && decide (e.SubscriptionVersion = "1")) = some channel_chat.Event
      ∧ GetByTriggerAndTransportAndVersion ([topicNamed "2"] ++ channel_chat.Event :: [chatTwin])
          "message" "webhook" "1" = (some channel_chat.Event, none) :=
  C2_first_full_match_wins [topicNamed "2"] [chatTwin] channel_chat.Event
    "message" "webhook" "1"
    (by
      intro e he
      simp only [List.singleton_append, List.mem_cons, List.mem_singleton, List.not_mem_nil,
        or_false] at he
      rcases he with rfl | rfl <;> rfl)
    (by
      intro e he
      simp only [List.mem_singleton] at he
      subst he
      decide)
    ⟨rfl, rfl, rfl⟩

/-- C3, as stated, fails: in the catalog `[channel_chat.Event, topicNamed "1"]` exactly one
descriptor, `topicNamed "1"`, accepts the trigger "channel.chat.message" and the transport
"webhook", yet resolving with the empty version returns `channel_chat.Event`, because
`channel_chat.Event` rewrites the working trigger to "message" before any test. -/
theorem C3_counterexample :
    accepts channel_chat.Event "channel.chat.message" "webhook" = false
      ∧ accepts (topicNamed "1") "channel.chat.message" "webhook" = true
      ∧ (topicNamed "1").SubscriptionVersion = "1"
      ∧ GetByTriggerAndTransportAndVersion [channel_chat.Event, topicNamed "1"]
          "channel.chat.message" "webhook" "" = (some channel_chat.Event, none)
      ∧ GetByTriggerAndTransportAndVersion [channel_chat.Event, topicNamed "1"]
          "channel.chat.message" "webhook" "" ≠ (some (topicNamed "1"), none) := by
  have h : GetByTriggerAndTransportAndVersion [channel_chat.Event, topicNamed "1"]
      "channel.chat.message" "webhook" "" = (some channel_chat.Event, none) := rfl
  refine ⟨rfl, rfl, rfl, h, ?_⟩
  rw [h]
  intro h2
  exact channel_chat_ne_topicNamed "1" (Option.some.inj (congrArg Prod.fst h2))

/-- C3, amended (single-version default): for every catalog `pre ++ d :: post` in which no
descriptor rewrites the trigger through an alias and exactly one descriptor, `d`, accepts
the trigger and the transport, resolving with the empty version string succeeds and
returns `d`. -/
theorem C3_single_version_default (pre post : List MockEvent) (d : MockEvent)
    (trigger transport : String)
    (hal : ∀ e ∈ pre ++ d :: post, aliasFires transport e trigger = false)
    (hd : d.ValidTrigger trigger = true ∧ d.ValidTransport transport = true)
    (honly : ∀ e ∈ pre ++ post,
      ¬ (e.ValidTrigger trigger = true ∧ e.ValidTransport transport = true)) :
    GetByTriggerAndTransportAndVersion (pre ++ d :: post) trigger transport ""
      = (some d, none) := by
  have hacc : accepts d trigger transport = true := by simp [accepts, hd.1, hd.2]
  have hrest : ∀ e ∈ pre ++ post, accepts e trigger transport = false := by
    intro e he
    have := honly e he
    simpa [accepts] using this
  rw [resolve_eq, candidates_of_no_alias transport trigger _ hal,
    filter_accepts_single pre post d trigger transport hacc hrest]
  by_cases hv : d.SubscriptionVersion = ""
  · simp [hv]
  · simp [hv, afterScan]

/-- Witness of C3: `channel_chat.Event` is the only descriptor of the catalog
`[topicNamed "2", channel_chat.Event]` that accepts ("message", "websocket"), and the
request ("message", "websocket", "") returns it. -/
theorem C3_single_version_default_witness :
    (channel_chat.Event.ValidTrigger "message" = true
        ∧ channel_chat.Event.ValidTransport "websocket" = true)
      ∧ GetByTriggerAndTransportAndVersion ([topicNamed "2"] ++ channel_chat.Event :: [])
          "message" "websocket" "" = (some channel_chat.Event, none) :=
  ⟨⟨rfl, rfl⟩,
    C3_single_version_default [topicNamed "2"] [] channel_chat.Event "message" "websocket"
      (by
        intro e he
        simp only [List.singleton_append, List.mem_cons, List.mem_singleton, List.not_mem_nil,
          or_false] at he
        rcases he with rfl | rfl <;> rfl)
      ⟨rfl, rfl⟩
      (by
        intro e he
        simp only [List.append_nil, List.mem_singleton] at he
        subst he
        decide)⟩

/-- C4, as stated, fails: in the catalog `[channel_chat.Event, topicNamed "1",
topicNamed "2"]` exactly two descriptors accept the trigger "channel.chat.message" and the
transport "webhook", with versions "1" and "2" in that order; yet resolving with the empty
version succeeds (it returns `channel_chat.Event`), and resolving with version "2" fails
with an invalid-version error that lists "1" only. -/
theorem C4_counterexample :
    [channel_chat.Event, topicNamed "1", topicNamed "2"].filter
        (fun e => accepts e "channel.chat.message" "webhook")
        = [topicNamed "1", topicNamed "2"]
      ∧ (topicNamed "1").SubscriptionVersion = "1"
      ∧ (topicNamed "2").SubscriptionVersion = "2"
      ∧ GetByTriggerAndTransportAndVersion [channel_chat.Event, topicNamed "1", topicNamed "2"]
          "channel.chat.message" "webhook" "" = (some channel_chat.Event, none)
      ∧ GetByTriggerAndTransportAndVersion [channel_chat.Event, topicNamed "1", topicNamed "2"]
          "channel.chat.message" "webhook" "2"
          = (none, some "Invalid version given. Valid version(s): 1") :=
  ⟨rfl, rfl, rfl, rfl, rfl⟩

/-- C4, amended (version disambiguation): for every catalog in which no descriptor rewrites
the trigger through an alias and exactly two descriptors accept the trigger and the
transport, `d1` of version "1" and then `d2` of version "2", resolving with the empty
version fails with the error "Invalid version given. Valid version(s): 1, 2" followed by
the hint to use --version, and resolving with version "2" returns `d2` with no error. -/
theorem C4_version_disambiguation (l0 l1 l2 : List MockEvent) (d1 d2 : MockEvent)
    (trigger transport : String)
    (hal : ∀ e ∈ l0 ++ d1 :: l1 ++ d2 :: l2, aliasFires transport e trigger = false)
    (h1 : d1.ValidTrigger trigger = true ∧ d1.ValidTransport transport = true)
    (h2 : d2.ValidTrigger trigger = true ∧ d2.ValidTransport transport = true)
    (honly : ∀ e ∈ l0 ++ l1 ++ l2,
      ¬ (e.ValidTrigger trigger = true ∧ e.ValidTransport transport = true))
    (hv1 : d1.SubscriptionVersion = "1") (hv2 : d2.SubscriptionVersion = "2") :
    GetByTriggerAndTransportAndVersion (l0 ++ d1 :: l1 ++ d2 :: l2) trigger transport ""
        = (none, some "Invalid version given. Valid version(s): 1, 2\nUse --version to specify")
      ∧ GetByTriggerAndTransportAndVersion (l0 ++ d1 :: l1 ++ d2 :: l2) trigger transport "2"
        = (some d2, none) := by
  have hacc1 : accepts d1 trigger transport = true := by simp [accepts, h1.1, h1.2]
  have hacc2 : accepts d2 trigger transport = true := by simp [accepts, h2.1, h2.2]
  have hnil : ∀ l : List MockEvent, (∀ e ∈ l, e ∈ l0 ++ l1 ++ l2) →
      l.filter (fun e => accepts e trigger transport) = [] := by
    intro l hl
    rw [List.filter_eq_nil_iff]
    intro e he
    have := honly e (hl e he)
    simpa [accepts] using this
  have hcands : (l0 ++ d1 :: l1 ++ d2 :: l2).filter (fun e => accepts e trigger transport)
      = [d1, d2] := by
    have e0 := hnil l0 (fun e he => by simp [he])
    have e1 := hnil l1 (fun e he => by simp [he])
    have e2 := hnil l2 (fun e he => by simp [he])
    simp [List.filter_append, List.filter_cons, e0, e1, e2, hacc1, hacc2]
  constructor
  · rw [resolve_eq, candidates_of_no_alias transport trigger _ hal, hcands]
    have hmsg : invalidVersionError ["1", "2"] ""
        = "Invalid version given. Valid version(s): 1, 2\nUse --version to specify" := by
      decide
    simp [hv1, hv2, afterScan, hmsg]
  · rw [resolve_eq, candidates_of_no_alias transport trigger _ hal, hcands]
    simp [hv1, hv2]

/-- Witness of C4: the catalog `[channel_chat.Event, streamChange "1", streamChange "2"]`
asked for the trigger "stream-change" on the transport "webhook". -/
theorem C4_version_disambiguation_witness :
    GetByTriggerAndTransportAndVersion
        ([channel_chat.Event] ++ streamChange "1" :: [] ++ streamChange "2" :: [])
        "stream-change" "webhook" ""
        = (none, some "Invalid version given. Valid version(s): 1, 2\nUse --version to specify")
      ∧ GetByTriggerAndTransportAndVersion
        ([channel_chat.Event] ++ streamChange "1" :: [] ++ streamChange "2" :: [])
        "stream-change" "webhook" "2"
        = (some (streamChange "2"), none) :=
  C4_version_disambiguation [channel_chat.Event] [] [] (streamChange "1") (streamChange "2")
    "stream-change" "webhook"
    (by
      intro e he
      simp only [List.singleton_append, List.cons_append, List.nil_append, List.mem_cons,
        List.not_mem_nil, or_false] at he
      rcases he with rfl | rfl | rfl <;> rfl)
    ⟨rfl, rfl⟩ ⟨rfl, rfl⟩
    (by
      intro e he
      simp only [List.append_nil, List.mem_singleton] at he
      subst he
      decide)
    rfl rfl

/-- C5, as stated, fails: in the catalog `[channel_chat.Event, chatTwin]` two descriptors
match ("message", "webhook") and both carry the version "1"; resolving with the empty
version fails with the invalid-version error, which lists the version "1" twice. -/
theorem C5_counterexample :
    GetByTriggerAndTransportAndVersion [channel_chat.Event, chatTwin] "message" "webhook" ""
        = (none, some "Invalid version given. Valid version(s): 1, 1\nUse --version to specify")
      ∧ GetByTriggerAndTransportAndVersion [channel_chat.Event, chatTwin] "message" "webhook" ""
        = (none, some (invalidVersionError ["1", "1"] ""))
      ∧ ¬ List.Nodup ["1", "1"] :=
  ⟨rfl, rfl, by decide⟩

/-- C5, amended: whenever the resolver fails with the invalid-version error (an error that
is neither the websocket error nor the default error), it returns no descriptor and the
versions listed in the error are the versions of the descriptors that matched the working
trigger and the transport during the scan, in catalog order, one entry for each such
descriptor; so no version is listed twice exactly when those descriptors carry pairwise
different versions. -/
theorem C5_listed_versions (AllEvents : List MockEvent)
    (trigger transport version msg : String)
    (herr : (GetByTriggerAndTransportAndVersion AllEvents trigger transport version).2 = some msg)
    (hws : msg ≠ webSocketError) (hdef : msg ≠ invalidEventError) :
    GetByTriggerAndTransportAndVersion AllEvents trigger transport version
        = (none, some (invalidVersionError
            ((candidates transport AllEvents trigger).map (fun e => e.SubscriptionVersion))
            version))
      ∧ candidates transport AllEvents trigger ≠ []
      ∧ (((candidates transport AllEvents trigger).map (fun e => e.SubscriptionVersion)).Nodup
          ↔ (candidates transport AllEvents trigger).Pairwise
              (fun a b => a.SubscriptionVersion ≠ b.SubscriptionVersion)) := by
  refine ⟨?_, ?_, ?_⟩
  · rw [resolve_eq] at herr ⊢
    cases hfind : List.find? (fun e => decide (e.SubscriptionVersion = version))
        (candidates transport AllEvents trigger) with
    | some d => rw [hfind] at herr; simp at herr
    | none =>
      rw [hfind] at herr
      simp only [afterScan] at herr ⊢
      by_cases c1 : version = "" ∧ (candidates transport AllEvents trigger).length = 1
      · rw [if_pos c1] at herr
        simp at herr
      · rw [if_neg c1] at herr ⊢
        by_cases c2 : (candidates transport AllEvents trigger).length ≠ 0
        · rw [if_pos c2]
        · rw [if_neg c2] at herr
          by_cases c3 : strings.EqualFold transport "websocket" = true
          · rw [if_pos c3] at herr
            exact absurd (Option.some.inj herr).symm hws
          · rw [if_neg c3] at herr
            exact absurd (Option.some.inj herr).symm hdef
  · intro hnil
    have h0 : afterScan [] transport version =
        if strings.EqualFold transport "websocket" = true then (none, some webSocketError)
        else (none, some invalidEventError) := by
      simp [afterScan]
    rw [resolve_eq, hnil] at herr
    simp only [List.find?_nil] at herr
    rw [h0] at herr
    by_cases c3 : strings.EqualFold transport "websocket" = true
    · rw [if_pos c3] at herr
      exact hws (Option.some.inj herr).symm
    · rw [if_neg c3] at herr
      exact hdef (Option.some.inj herr).symm
  · rw [List.Nodup, List.pairwise_map]

/-- Witness of C5: the request ("message", "webhook", "") against the catalog
`[channel_chat.Event, chatTwin]`, whose error lists one version per matching descriptor. -/
theorem C5_listed_versions_witness :
    (GetByTriggerAndTransportAndVersion [channel_chat.Event, chatTwin] "message" "webhook" "").2
        = some "Invalid version given. Valid version(s): 1, 1\nUse --version to specify"
      ∧ GetByTriggerAndTransportAndVersion [channel_chat.Event, chatTwin] "message" "webhook" ""
        = (none, some (invalidVersionError
            ((candidates "webhook" [channel_chat.Event, chatTwin] "message").map
              (fun e => e.SubscriptionVersion)) "")) :=
  ⟨rfl,
    (C5_listed_versions [channel_chat.Event, chatTwin] "message" "webhook" ""
      "Invalid version given. Valid version(s): 1, 1\nUse --version to specify"
      rfl (by decide) (by decide)).1⟩

/-- C6, as stated, fails: in the catalog `[channel_chat.Event, topicNamed "2"]` one
descriptor, `topicNamed "2"`, accepts the trigger "channel.chat.message" and the transport
"webhook", and it does not have the version "1"; yet the request ("channel.chat.message",
"webhook", "1") returns a descriptor, `channel_chat.Event`, and no error. -/
theorem C6_counterexample :
    [channel_chat.Event, topicNamed "2"].filter
        (fun e => accepts e "channel.chat.message" "webhook") = [topicNamed "2"]
      ∧ (topicNamed "2").SubscriptionVersion ≠ "1"
      ∧ GetByTriggerAndTransportAndVersion [channel_chat.Event, topicNamed "2"]
          "channel.chat.message" "webhook" "1" = (some channel_chat.Event, none) :=
  ⟨rfl, by decide, rfl⟩

/-- C6, amended: for every catalog in which no descriptor rewrites the trigger through an
alias, and every non-empty version `v`: if at least one descriptor accepts the trigger and
the transport but none of those has version `v`, the resolver returns no descriptor and
fails with the error "Invalid version given. Valid version(s): ..." listing the versions
of the accepting descriptors, without the hint, even when only one candidate exists; with
the empty version, at least two accepting descriptors and none of the empty version, it
fails with the same message followed by the hint; and whenever the resolver, for any
catalog and any request, fails with an invalid-version error (an error that is neither of
its two fixed errors), the message is the list of versions with the hint "Use --version to
specify" appended if and only if the supplied version is the empty string. -/
theorem C6_invalid_version_error (AllEvents : List MockEvent)
    (trigger transport version : String)
    (hal : ∀ e ∈ AllEvents, aliasFires transport e trigger = false)
    (hv : version ≠ "")
    (hex : ∃ e ∈ AllEvents, e.ValidTrigger trigger = true ∧ e.ValidTransport transport = true)
    (hno : ∀ e ∈ AllEvents, e.ValidTrigger trigger = true → e.ValidTransport transport = true →
      e.SubscriptionVersion ≠ version) :
    GetByTriggerAndTransportAndVersion AllEvents trigger transport version
        = (none, some ("Invalid version given. Valid version(s): " ++
            strings.Join ((AllEvents.filter (fun e => accepts e trigger transport)).map
              (fun e => e.SubscriptionVersion)) ", "))
      ∧ (2 ≤ (AllEvents.filter (fun e => accepts e trigger transport)).length →
          (∀ e ∈ AllEvents, e.ValidTrigger trigger = true → e.ValidTransport transport = true →
            e.SubscriptionVersion ≠ "") →
          GetByTriggerAndTransportAndVersion AllEvents trigger transport ""
            = (none, some ("Invalid version given. Valid version(s): " ++
                strings.Join ((AllEvents.filter (fun e => accepts e trigger transport)).map
                  (fun e => e.SubscriptionVersion)) ", " ++ "\nUse --version to specify")))
      ∧ (∀ (catalog : List MockEvent) (t tr v msg : String),
          (GetByTriggerAndTransportAndVersion catalog t tr v).2 = some msg →
          msg ≠ "Invalid event, or this event is not available via WebSockets." →
          msg ≠ "Invalid event" →
          (GetByTriggerAndTransportAndVersion catalog t tr v).1 = none
            ∧ msg = ("Invalid version given. Valid version(s): " ++
                strings.Join ((candidates tr catalog t).map (fun e => e.SubscriptionVersion))
                  ", ") ++ (if v = "" then "\nUse --version to specify" else "")
            ∧ (msg = ("Invalid version given. Valid version(s): " ++
                strings.Join ((candidates tr catalog t).map (fun e => e.SubscriptionVersion))
                  ", ") ++ "\nUse --version to specify" ↔ v = "")) := by
  have hfilter_none : ∀ v : String,
      (∀ e ∈ AllEvents, e.ValidTrigger trigger = true → e.ValidTransport transport = true →
        e.SubscriptionVersion ≠ v) →
      List.find? (fun e => decide (e.SubscriptionVersion = v))
        (AllEvents.filter (fun e => accepts e trigger transport)) = none := by
    intro v hnov
    rw [List.find?_eq_none]
    intro e he
    rw [List.mem_filter] at he
    have hacc := he.2
    simp only [accepts, Bool.and_eq_true] at hacc
    simpa using hnov e he.1 hacc.1 hacc.2
  refine ⟨?_, ?_, ?_⟩
  · have hlen : (AllEvents.filter (fun e => accepts e trigger transport)).length ≠ 0 := by
      obtain ⟨e, he, h1, h2⟩ := hex
      have hmem : e ∈ AllEvents.filter (fun e => accepts e trigger transport) := by
        rw [List.mem_filter]
        exact ⟨he, by simp [accepts, h1, h2]⟩
      intro h0
      rw [List.length_eq_zero] at h0
      rw [h0] at hmem
      exact List.not_mem_nil _ hmem
    rw [resolve_eq, candidates_of_no_alias transport trigger _ hal, hfilter_none version hno]
    simp only [afterScan]
    rw [if_neg (fun h => hv h.1), if_pos hlen]
    simp [invalidVersionError, hv]
  · intro htwo hnoempty
    have hlen1 : ¬ ("" = "" ∧
        (AllEvents.filter (fun e => accepts e trigger transport)).length = 1) := by
      intro h
      omega
    have hlen0 : (AllEvents.filter (fun e => accepts e trigger transport)).length ≠ 0 := by
      omega
    rw [resolve_eq, candidates_of_no_alias transport trigger _ hal, hfilter_none "" hnoempty]
    unfold afterScan
    rw [if_neg hlen1, if_pos hlen0]
    simp [invalidVersionError]
  · intro catalog t tr v msg herr hws hdef
    obtain ⟨hnone, _, hmsg⟩ := resolve_error_cases catalog t tr v msg herr hws hdef
    refine ⟨hnone, ?_, ?_⟩
    · rw [hmsg]
      by_cases h : v = ""
      · simp [invalidVersionError, h]
      · simp [invalidVersionError, h]
    · rw [hmsg]
      by_cases h : v = ""
      · simp [invalidVersionError, h]
      · have hne := append_hint_ne ("Invalid version given. Valid version(s): " ++
          strings.Join ((candidates tr catalog t).map (fun e => e.SubscriptionVersion)) ", ")
        simp only [invalidVersionError, if_neg h]
        exact ⟨fun h2 => absurd h2.symm hne, fun h2 => absurd h2 h⟩

/-- Witness of C6: with one candidate only, the request ("message", "webhook", "2")
against the catalog `[channel_chat.Event]` fails without the hint; with two candidates of
versions "1" and "2", the request ("stream-change", "webhook", "3") fails without the
hint and the request ("stream-change", "webhook", "") fails with it. -/
theorem C6_invalid_version_error_witness :
    (GetByTriggerAndTransportAndVersion [channel_chat.Event] "message" "webhook" "2"
        = (none, some "Invalid version given. Valid version(s): 1")
      ∧ GetByTriggerAndTransportAndVersion [channel_chat.Event] "message" "webhook" "2"
        = (none, some ("Invalid version given. Valid version(s): " ++
            strings.Join (([channel_chat.Event].filter (fun e => accepts e "message" "webhook")).map
              (fun e => e.SubscriptionVersion)) ", ")))
    ∧ (GetByTriggerAndTransportAndVersion [channel_chat.Event, streamChange "1", streamChange "2"]
          "stream-change" "webhook" "3"
        = (none, some "Invalid version given. Valid version(s): 1, 2")
      ∧ GetByTriggerAndTransportAndVersion
          [channel_chat.Event, streamChange "1", streamChange "2"] "stream-change" "webhook" ""
        = (none, some "Invalid version given. Valid version(s): 1, 2\nUse --version to specify")
      ∧ GetByTriggerAndTransportAndVersion
          [channel_chat.Event, streamChange "1", streamChange "2"] "stream-change" "webhook" ""
        = (none, some ("Invalid version given. Valid version(s): " ++
            strings.Join (([channel_chat.Event, streamChange "1", streamChange "2"].filter
              (fun e => accepts e "stream-change" "webhook")).map
              (fun e => e.SubscriptionVersion)) ", " ++ "\nUse --version to specify"))) :=
  ⟨⟨rfl,
    (C6_invalid_version_error [channel_chat.Event] "message" "webhook" "2"
      (by
        intro e he
        simp only [List.mem_singleton] at he
        subst he
        rfl)
      (by decide)
      ⟨channel_chat.Event, by simp, rfl, rfl⟩
      (by
        intro e he _ _
        simp only [List.mem_singleton] at he
        subst he
        decide)).1⟩,
    ⟨rfl, rfl,
    (C6_invalid_version_error [channel_chat.Event, streamChange "1", streamChange "2"]
      "stream-change" "webhook" "3"
      (by
        intro e he
        simp only [List.mem_cons, List.mem_singleton, List.not_mem_nil, or_false] at he
        rcases he with rfl | rfl | rfl <;> rfl)
      (by decide)
      ⟨streamChange "1", by simp, rfl, rfl⟩
      (by
        intro e he _ _
        simp only [List.mem_cons, List.mem_singleton, List.not_mem_nil, or_false] at he
        rcases he with rfl | rfl | rfl <;> decide)).2.1
      (by decide)
      (by
        intro e he _ _
        simp only [List.mem_cons, List.mem_singleton, List.not_mem_nil, or_false] at he
        rcases he with rfl | rfl | rfl <;> decide)⟩⟩

/-- C7, as stated, fails in two ways. In the catalog `[channel_chat.Event, topicNamed "1"]`
the trigger "channel.chat.message" is accepted by `topicNamed "1"` only, which does not
support the websocket transport; yet the request ("channel.chat.message", "websocket",
"1") does not fail: `channel_chat.Event` rewrites the trigger to "message" and is returned
with no error. And a transport that equals "websocket" only up to case is tested as it is
spelled: in the catalog `[capitalsChat]` the trigger "message" is accepted by a descriptor
for which `ValidTransport "websocket"` is false, yet the request ("message", "WEBSOCKET",
"1") returns that descriptor. -/
theorem C7_counterexample :
    ([channel_chat.Event, topicNamed "1"].filter
        (fun e => e.ValidTrigger "channel.chat.message") = [topicNamed "1"]
      ∧ (topicNamed "1").ValidTransport "websocket" = false
      ∧ strings.EqualFold "websocket" "websocket" = true
      ∧ GetByTriggerAndTransportAndVersion [channel_chat.Event, topicNamed "1"]
          "channel.chat.message" "websocket" "1" = (some channel_chat.Event, none))
    ∧ (capitalsChat.ValidTrigger "message" = true
      ∧ capitalsChat.ValidTransport "websocket" = false
      ∧ strings.EqualFold "WEBSOCKET" "websocket" = true
      ∧ GetByTriggerAndTransportAndVersion [capitalsChat] "message" "WEBSOCKET" "1"
          = (some capitalsChat, none)) :=
  ⟨⟨rfl, rfl, rfl, rfl⟩, ⟨rfl, rfl, rfl, rfl⟩⟩

/-- C7, amended (websocket-unsupported trigger): for every catalog in which no descriptor
rewrites the trigger through an alias, every transport that case-insensitively equals
"websocket", and every trigger that is accepted only by descriptors that do not support
that transport as it is spelled in the request, resolving the trigger with that transport,
and any version, fails with the error "Invalid event, or this event is not available via
WebSockets.", not with the invalid-version or the default error. -/
theorem C7_websocket_unsupported (AllEvents : List MockEvent)
    (trigger transport version : String)
    (hws : strings.EqualFold transport "websocket" = true)
    (hal : ∀ e ∈ AllEvents, aliasFires transport e trigger = false)
    (hunsup : ∀ e ∈ AllEvents, e.ValidTrigger trigger = true → e.ValidTransport transport = false) :
    GetByTriggerAndTransportAndVersion AllEvents trigger transport version
      = (none, some "Invalid event, or this event is not available via WebSockets.") := by
  have hnil : AllEvents.filter (fun e => accepts e trigger transport) = [] := by
    rw [List.filter_eq_nil_iff]
    intro e he
    simp only [accepts, Bool.and_eq_true, not_and, Bool.not_eq_true]
    exact hunsup e he
  rw [resolve_eq, candidates_of_no_alias transport trigger _ hal, hnil]
  simp only [List.find?_nil]
  rw [afterScan_nil, if_pos hws]
  rfl

/-- Witness of C7: the trigger "message" in a catalog where only the webhook-only
`chatTwin` answers to it, requested on the transport "websocket". -/
theorem C7_websocket_unsupported_witness :
    strings.EqualFold "websocket" "websocket" = true
      ∧ chatTwin.ValidTrigger "message" = true
      ∧ chatTwin.ValidTransport "websocket" = false
      ∧ GetByTriggerAndTransportAndVersion [chatTwin, streamChange "1"] "message" "websocket" ""
          = (none, some "Invalid event, or this event is not available via WebSockets.") :=
  ⟨rfl, rfl, rfl,
    C7_websocket_unsupported [chatTwin, streamChange "1"] "message" "websocket" "" rfl
      (by
        intro e he
        simp only [List.mem_cons, List.mem_singleton, List.not_mem_nil, or_false] at he
        rcases he with rfl | rfl <;> rfl)
      (by
        intro e he
        simp only [List.mem_cons, List.mem_singleton, List.not_mem_nil, or_false] at he
        rcases he with rfl | rfl <;> decide)⟩

/-- C8, as stated, fails for the transport "websocket": no descriptor of the catalog
`[channel_chat.Event]` recognizes "not-a-real-trigger", as a trigger or as an alias, yet
the request ("not-a-real-trigger", "websocket", "") fails with the websocket error and
not with the error "Invalid event". -/
theorem C8_counterexample :
    channel_chat.Event.ValidTrigger "not-a-real-trigger" = false
      ∧ channel_chat.Event.GetEventSubAlias "not-a-real-trigger" = ""
      ∧ GetByTriggerAndTransportAndVersion [channel_chat.Event]
          "not-a-real-trigger" "websocket" ""
          = (none, some "Invalid event, or this event is not available via WebSockets.")
      ∧ GetByTriggerAndTransportAndVersion [channel_chat.Event]
          "not-a-real-trigger" "websocket" "" ≠ (none, some "Invalid event") := by
  have h : GetByTriggerAndTransportAndVersion [channel_chat.Event]
      "not-a-real-trigger" "websocket" ""
      = (none, some "Invalid event, or this event is not available via WebSockets.") := rfl
  refine ⟨rfl, rfl, h, ?_⟩
  rw [h]
  intro h2
  have h3 := Option.some.inj (congrArg Prod.snd h2)
  revert h3
  decide

/-- C8, amended (unknown trigger): for every transport string and every version, if no
descriptor in the catalog recognizes the trigger for that transport at all (neither as a
trigger nor as an alias), the resolver fails with the error "Invalid event" when the
transport does not case-insensitively equal "websocket", and with the error "Invalid
event, or this event is not available via WebSockets." when it does. -/
theorem C8_unknown_trigger (AllEvents : List MockEvent)
    (trigger transport version : String)
    (hno : ∀ e ∈ AllEvents, aliasFires transport e trigger = false
      ∧ ¬ (e.ValidTrigger trigger = true ∧ e.ValidTransport transport = true)) :
    GetByTriggerAndTransportAndVersion AllEvents trigger transport version
      = (none, some (if strings.EqualFold transport "websocket" = true
          then "Invalid event, or this event is not available via WebSockets."
          else "Invalid event")) := by
  have hnil : AllEvents.filter (fun e => accepts e trigger transport) = [] := by
    rw [List.filter_eq_nil_iff]
    intro e he
    simpa [accepts] using (hno e he).2
  rw [resolve_eq, candidates_of_no_alias transport trigger _ (fun e he => (hno e he).1), hnil]
  simp only [List.find?_nil]
  rw [afterScan_nil]
  rfl

/-- Witness of C8: the request ("not-a-real-trigger", "webhook", "") against the catalog
`[channel_chat.Event, streamChange "1"]` fails with the error "Invalid event". -/
theorem C8_unknown_trigger_witness :
    GetByTriggerAndTransportAndVersion [channel_chat.Event, streamChange "1"]
        "not-a-real-trigger" "webhook" ""
      = (none, some (if strings.EqualFold "webhook" "websocket" = true
          then "Invalid event, or this event is not available via WebSockets."
          else "Invalid event"))
      ∧ strings.EqualFold "webhook" "websocket" = false :=
  ⟨C8_unknown_trigger [channel_chat.Event, streamChange "1"] "not-a-real-trigger" "webhook" ""
      (by
        intro e he
        simp only [List.mem_cons, List.mem_singleton, List.not_mem_nil, or_false] at he
        rcases he with rfl | rfl <;> exact ⟨rfl, by decide⟩),
    rfl⟩

/-- C9, as stated, fails in two ways, for the topic "channel.chat.message" that
`channel_chat.Event` maps from the trigger "message" under webhook. In the catalog
`[chatAlt, channel_chat.Event]` the first descriptor that recognizes the topic as an
alias, `chatAlt`, maps it to another trigger, "chat": the topic resolves to `chatAlt` and
the trigger to `channel_chat.Event`. In the catalog `[messageTopic, channel_chat.Event]`
the first descriptor that recognizes the topic is `channel_chat.Event` and the descriptor
before it accepts neither string as a trigger, but it recognizes the string "message" as
an alias of its trigger "msg": the topic resolves to `channel_chat.Event` and the trigger
to `messageTopic`. -/
theorem C9_counterexample :
    (channel_chat.Event.GetTopic "webhook" "message" = "channel.chat.message"
      ∧ chatAlt.GetEventSubAlias "channel.chat.message" = "chat"
      ∧ GetByTriggerAndTransportAndVersion [chatAlt, channel_chat.Event]
          "channel.chat.message" "webhook" "1" = (some chatAlt, none)
      ∧ GetByTriggerAndTransportAndVersion [chatAlt, channel_chat.Event]
          "message" "webhook" "1" = (some channel_chat.Event, none)
      ∧ GetByTriggerAndTransportAndVersion [chatAlt, channel_chat.Event]
          "channel.chat.message" "webhook" "1"
        ≠ GetByTriggerAndTransportAndVersion [chatAlt, channel_chat.Event]
          "message" "webhook" "1")
    ∧ (messageTopic.GetEventSubAlias "channel.chat.message" = ""
      ∧ messageTopic.ValidTrigger "channel.chat.message" = false
      ∧ messageTopic.ValidTrigger "message" = false
      ∧ channel_chat.Event.GetEventSubAlias "channel.chat.message" = "message"
      ∧ GetByTriggerAndTransportAndVersion [messageTopic, channel_chat.Event]
          "channel.chat.message" "webhook" "1" = (some channel_chat.Event, none)
      ∧ GetByTriggerAndTransportAndVersion [messageTopic, channel_chat.Event]
          "message" "webhook" "1" = (some messageTopic, none)
      ∧ GetByTriggerAndTransportAndVersion [messageTopic, channel_chat.Event]
          "channel.chat.message" "webhook" "1"
        ≠ GetByTriggerAndTransportAndVersion [messageTopic, channel_chat.Event]
          "message" "webhook" "1") := by
  have h1 : GetByTriggerAndTransportAndVersion [chatAlt, channel_chat.Event]
      "channel.chat.message" "webhook" "1" = (some chatAlt, none) := rfl
  have h2 : GetByTriggerAndTransportAndVersion [chatAlt, channel_chat.Event]
      "message" "webhook" "1" = (some channel_chat.Event, none) := rfl
  have h3 : GetByTriggerAndTransportAndVersion [messageTopic, channel_chat.Event]
      "channel.chat.message" "webhook" "1" = (some channel_chat.Event, none) := rfl
  have h4 : GetByTriggerAndTransportAndVersion [messageTopic, channel_chat.Event]
      "message" "webhook" "1" = (some messageTopic, none) := rfl
  have ne1 : channel_chat.Event ≠ chatAlt := by
    intro h
    have h5 : true = false := congrArg (fun e => e.ValidTransport "websocket") h
    exact Bool.noConfusion h5
  have ne2 : channel_chat.Event ≠ messageTopic := by
    intro h
    have h5 : true = false := congrArg (fun e => e.ValidTransport "websocket") h
    exact Bool.noConfusion h5
  refine ⟨⟨rfl, rfl, h1, h2, ?_⟩, ⟨rfl, rfl, rfl, rfl, h3, h4, ?_⟩⟩
  · rw [h1, h2]
    intro h
    exact ne1 (Option.some.inj (congrArg Prod.fst h)).symm
  · rw [h3, h4]
    intro h
    exact ne2 (Option.some.inj (congrArg Prod.fst h))

/-- C9, amended (canonical topic as trigger input): for the transport "webhook" or
"websocket", every version, and every catalog `pre ++ a :: post` in which `a` is the first
descriptor that recognizes the string `T` as an alias, `a` maps `T` to the trigger `t`, no
descriptor up to and including `a` recognizes `t` itself as an alias, and no descriptor
before `a` accepts either string as a trigger: resolving with `T` gives the same result
(same descriptor or same error) as resolving with `t`. -/
theorem C9_canonical_topic_as_trigger (pre post : List MockEvent) (a : MockEvent)
    (T t transport version : String)
    (htr : transport = "webhook" ∨ transport = "websocket")
    (hfirst : ∀ e ∈ pre, e.GetEventSubAlias T = "")
    (ha : a.GetEventSubAlias T = t) (ht : t ≠ "")
    (hnot : ∀ e ∈ pre ++ [a], e.GetEventSubAlias t = "")
    (hacc : ∀ e ∈ pre, e.ValidTrigger T = false ∧ e.ValidTrigger t = false) :
    GetByTriggerAndTransportAndVersion (pre ++ a :: post) T transport version
      = GetByTriggerAndTransportAndVersion (pre ++ a :: post) t transport version := by
  have hpreT : pre.filter (fun e => accepts e T transport) = [] := by
    rw [List.filter_eq_nil_iff]
    intro e he
    simp [accepts, (hacc e he).1]
  have hpret : pre.filter (fun e => accepts e t transport) = [] := by
    rw [List.filter_eq_nil_iff]
    intro e he
    simp [accepts, (hacc e he).2]
  have hrwT : rewriteTrigger transport a T = t := by
    have htr2 : transport = models.TransportWebhook ∨ transport = models.TransportWebSocket := htr
    simp only [rewriteTrigger, if_pos htr2, ha]
    rw [if_pos ht]
  have hrwt : rewriteTrigger transport a t = t :=
    rewriteTrigger_of_not_aliasFires
      (aliasFires_of_alias_empty transport (hnot a (by simp)))
  have hcands : candidates transport (pre ++ a :: post) T
      = candidates transport (pre ++ a :: post) t := by
    rw [candidates_append_of_no_alias transport T pre (a :: post)
        (fun e he => aliasFires_of_alias_empty transport (hfirst e he)),
      candidates_append_of_no_alias transport t pre (a :: post)
        (fun e he => aliasFires_of_alias_empty transport (hnot e (by simp [he]))),
      hpreT, hpret]
    simp only [candidates, hrwT, hrwt]
  rw [resolve_eq, resolve_eq, hcands]

/-- Witness of C9: against a catalog whose first alias-recognizing descriptor is
`channel_chat.Event`, "channel.chat.message" resolves exactly as "message" does. -/
theorem C9_canonical_topic_as_trigger_witness :
    channel_chat.Event.GetEventSubAlias "channel.chat.message" = "message"
      ∧ GetByTriggerAndTransportAndVersion ([streamChange "1"] ++ channel_chat.Event :: [chatTwin])
          "channel.chat.message" "webhook" "1"
        = GetByTriggerAndTransportAndVersion ([streamChange "1"] ++ channel_chat.Event :: [chatTwin])
          "message" "webhook" "1"
      ∧ GetByTriggerAndTransportAndVersion ([streamChange "1"] ++ channel_chat.Event :: [chatTwin])
          "message" "webhook" "1" = (some channel_chat.Event, none) :=
  ⟨rfl,
    C9_canonical_topic_as_trigger [streamChange "1"] [chatTwin] channel_chat.Event
      "channel.chat.message" "message" "webhook" "1" (Or.inl rfl)
      (by
        intro e he
        simp only [List.mem_singleton] at he
        subst he
        rfl)
      rfl (by decide)
      (by
        intro e he
        simp only [List.singleton_append, List.mem_cons, List.mem_singleton, List.not_mem_nil,
          or_false] at he
        rcases he with rfl | rfl <;> rfl)
      (by
        intro e he
        simp only [List.mem_singleton] at he
        subst he
        exact ⟨rfl, rfl⟩),
    rfl⟩

/-- C10: for every catalog, `AllWebhookTopics` returns a list in strictly ascending
lexicographic order, hence with no duplicate entries, and calling it again returns the
same list, whatever the order in which each descriptor enumerates its topics on the
second call (`AllEvents2` holds the same descriptors with their webhook topics permuted). -/
theorem C10_all_webhook_topics_sorted_stable (AllEvents AllEvents2 : List MockEvent)
    (hsame : List.Forall₂
      (fun e e2 => (e.GetAllTopicsByTransport models.TransportWebhook).Perm
        (e2.GetAllTopicsByTransport models.TransportWebhook)) AllEvents AllEvents2) :
    List.Sorted (fun a b : String => a < b) (AllWebhookTopics AllEvents)
      ∧ (AllWebhookTopics AllEvents).Nodup
      ∧ AllWebhookTopics AllEvents2 = AllWebhookTopics AllEvents := by
  refine ⟨sorted_lt_AllWebhookTopics AllEvents, nodup_AllWebhookTopics AllEvents, ?_⟩
  apply AllWebhookTopics_congr
  intro k
  induction hsame with
  | nil => simp
  | cons hperm _ ih =>
    simp only [List.mem_cons, exists_eq_or_imp]
    rw [ih, hperm.mem_iff]

/-- Witness of C10: a catalog whose first descriptor enumerates its two topics in one order
on the first call and in the other order on the second; both calls return the same
ascending list. -/
theorem C10_all_webhook_topics_sorted_stable_witness :
    AllWebhookTopics
        [moderatorChange [("remove-moderator", "channel.moderator.remove"),
            ("add-moderator", "channel.moderator.add")], channel_chat.Event, chatTwin]
        = ["channel.chat.message", "channel.moderator.add", "channel.moderator.remove"]
      ∧ AllWebhookTopics
        [moderatorChange [("add-moderator", "channel.moderator.add"),
            ("remove-moderator", "channel.moderator.remove")], channel_chat.Event, chatTwin]
        = AllWebhookTopics
        [moderatorChange [("remove-moderator", "channel.moderator.remove"),
            ("add-moderator", "channel.moderator.add")], channel_chat.Event, chatTwin] :=
  ⟨rfl,
    (C10_all_webhook_topics_sorted_stable
      [moderatorChange [("remove-moderator", "channel.moderator.remove"),
          ("add-moderator", "channel.moderator.add")], channel_chat.Event, chatTwin]
      [moderatorChange [("add-moderator", "channel.moderator.add"),
          ("remove-moderator", "channel.moderator.remove")], channel_chat.Event, chatTwin]
      (List.Forall₂.cons (List.Perm.swap _ _ _)
        (List.Forall₂.cons (List.Perm.refl _)
          (List.Forall₂.cons (List.Perm.refl _) List.Forall₂.nil)))).2.2⟩

/-! ## The channel_chat descriptor -/

namespace channel_chat

theorem ValidTransport_iff (t : String) :
    ValidTransport t = true ↔ (t = "webhook" ∨ t = "websocket") := by
  unfold ValidTransport transportsSupported models.TransportWebhook models.TransportWebSocket
  by_cases h1 : t = "webhook"
  · subst h1
    simp [List.lookup]
  · by_cases h2 : t = "websocket"
    · subst h2
      simp [List.lookup]
    · have e1 : (t == "webhook") = false := by simpa using h1
      have e2 : (t == "websocket") = false := by simpa using h2
      simp [List.lookup, e1, e2, h1, h2]

/-- For a supported transport `GenerateEvent` answers with the request's message id, the
target user on both sides, the encoded envelope, and no error. -/
theorem GenerateEvent_of_supported (params : events.MockEventParameters) (r : rand.Reader)
    (h : ValidTransport params.Transport = true) :
    GenerateEvent params r =
      ({ ID := params.EventMessageID
         JSON := some
          (if strings.EqualFold params.SubscriptionStatus "enabled" = true then
            json.Marshal (body params (util.RandomGUID r).1
              (util.RandomColorInHex (util.RandomGUID r).2).1)
          else
            json.MarshalDecoded (json.deleteKey
              (json.Marshal (body params (util.RandomGUID r).1
                (util.RandomColorInHex (util.RandomGUID r).2).1)) "event"))
         FromUser := params.ToUserID
         ToUser := params.ToUserID }, none) := by
  have htr : params.Transport = models.TransportWebhook
      ∨ params.Transport = models.TransportWebSocket := (ValidTransport_iff _).1 h
  unfold GenerateEvent
  rw [if_pos htr]
  by_cases he : strings.EqualFold params.SubscriptionStatus "enabled" = true
  · simp [he]
  · simp [he]

end channel_chat

/-! ## The topic index, continued -/

namespace types

/-- Catalogs whose descriptors expose, one by one, the same webhook topics up to order
expose the same webhook topics as a whole. -/
theorem exists_topic_of_forall₂ (l1 l2 : List MockEvent)
    (h : List.Forall₂
      (fun e e2 => (e.GetAllTopicsByTransport models.TransportWebhook).Perm
        (e2.GetAllTopicsByTransport models.TransportWebhook)) l1 l2) (k : String) :
    (∃ e ∈ l1, k ∈ e.GetAllTopicsByTransport models.TransportWebhook) ↔
      (∃ e ∈ l2, k ∈ e.GetAllTopicsByTransport models.TransportWebhook) := by
  induction h with
  | nil => simp
  | cons hperm _ ih =>
    simp only [List.mem_cons, exists_eq_or_imp]
    rw [ih, hperm.mem_iff]

theorem mem_addCommandTopics (topics allEvents : List String) (k : String) :
    k ∈ addCommandTopics topics allEvents ↔
      (k ∈ allEvents ∨ (k ∈ topics ∧ strings.HasPrefix k "websocket" = true)) := by
  induction topics generalizing allEvents with
  | nil => simp [addCommandTopics]
  | cons topic rest ih =>
    simp only [addCommandTopics]
    by_cases hp : strings.HasPrefix topic "websocket" = true
    · have hmem : k ∈ allEvents ++ [topic] ↔ (k ∈ allEvents ∨ k = topic) := by simp
      rw [if_pos hp, ih, hmem, List.mem_cons]
      constructor
      · rintro ((h | h) | h)
        · exact Or.inl h
        · exact Or.inr ⟨Or.inl h, h ▸ hp⟩
        · exact Or.inr ⟨Or.inr h.1, h.2⟩
      · rintro (h | ⟨h | h, h2⟩)
        · exact Or.inl (Or.inl h)
        · exact Or.inl (Or.inr h)
        · exact Or.inr ⟨h, h2⟩
    · rw [if_neg hp, ih]
      simp only [List.mem_cons]
      constructor
      · rintro (h | h)
        · exact Or.inl h
        · exact Or.inr ⟨Or.inr h.1, h.2⟩
      · rintro (h | ⟨h | h, h2⟩)
        · exact Or.inl h
        · exact absurd (h ▸ h2) hp
        · exact Or.inr ⟨h, h2⟩

theorem mem_collectCommandTopics (l : List MockEvent) (allEvents : List String) (k : String) :
    k ∈ collectCommandTopics l allEvents ↔
      (k ∈ allEvents ∨ ((∃ e ∈ l, k ∈ e.GetAllTopicsByTransport models.TransportWebSocket)
        ∧ strings.HasPrefix k "websocket" = true)) := by
  induction l generalizing allEvents with
  | nil => simp [collectCommandTopics]
  | cons e rest ih =>
    simp only [collectCommandTopics]
    rw [ih, mem_addCommandTopics]
    simp only [List.mem_cons, exists_eq_or_imp]
    tauto

theorem mem_WebSocketCommandTopics (AllEvents : List MockEvent) (k : String) :
    k ∈ WebSocketCommandTopics AllEvents ↔
      ((∃ e ∈ AllEvents, k ∈ e.GetAllTopicsByTransport models.TransportWebSocket)
        ∧ strings.HasPrefix k "websocket" = true) := by
  unfold WebSocketCommandTopics sort.Strings
  rw [(List.perm_insertionSort _ _).mem_iff, mem_collectCommandTopics]
  simp

end types

/-- C11: a topic string is in the result of `AllWebhookTopics` if and only if some
descriptor of the catalog lists it in `GetAllTopicsByTransport("webhook")`, and the result
is unchanged when the descriptors are reordered in the catalog (`reordered`) and when any
descriptor returns its topics in a different order (`AllEvents2`). -/
theorem C11_all_webhook_topics_stable (AllEvents reordered AllEvents2 : List MockEvent)
    (hperm : AllEvents.Perm reordered)
    (hsame : List.Forall₂
      (fun e e2 => (e.GetAllTopicsByTransport "webhook").Perm
        (e2.GetAllTopicsByTransport "webhook")) reordered AllEvents2) :
    (∀ k, k ∈ AllWebhookTopics AllEvents ↔
        ∃ e ∈ AllEvents, k ∈ e.GetAllTopicsByTransport "webhook")
      ∧ AllWebhookTopics reordered = AllWebhookTopics AllEvents
      ∧ AllWebhookTopics AllEvents2 = AllWebhookTopics AllEvents := by
  have h1 : AllWebhookTopics reordered = AllWebhookTopics AllEvents := by
    apply AllWebhookTopics_congr
    intro k
    constructor
    · rintro ⟨e, he, hk⟩
      exact ⟨e, hperm.mem_iff.2 he, hk⟩
    · rintro ⟨e, he, hk⟩
      exact ⟨e, hperm.mem_iff.1 he, hk⟩
  refine ⟨fun k => mem_AllWebhookTopics AllEvents k, h1, ?_⟩
  rw [← h1]
  apply AllWebhookTopics_congr
  intro k
  exact (exists_topic_of_forall₂ reordered AllEvents2 hsame k).symm

/-- Witness of C11: the catalog `[moderatorChange .., channel_chat.Event, chatTwin]`, with
its first two descriptors swapped and the two topics of `moderatorChange` enumerated in
the other order. -/
theorem C11_all_webhook_topics_stable_witness :
    AllWebhookTopics
        [channel_chat.Event,
          moderatorChange [("add-moderator", "channel.moderator.add"),
            ("remove-moderator", "channel.moderator.remove")], chatTwin]
      = AllWebhookTopics
        [moderatorChange [("remove-moderator", "channel.moderator.remove"),
            ("add-moderator", "channel.moderator.add")], channel_chat.Event, chatTwin]
      ∧ AllWebhookTopics
        [moderatorChange [("remove-moderator", "channel.moderator.remove"),
            ("add-moderator", "channel.moderator.add")], channel_chat.Event, chatTwin]
      = ["channel.chat.message", "channel.moderator.add", "channel.moderator.remove"] :=
  ⟨(C11_all_webhook_topics_stable
      [moderatorChange [("remove-moderator", "channel.moderator.remove"),
          ("add-moderator", "channel.moderator.add")], channel_chat.Event, chatTwin]
      [channel_chat.Event,
        moderatorChange [("remove-moderator", "channel.moderator.remove"),
          ("add-moderator", "channel.moderator.add")], chatTwin]
      [channel_chat.Event,
        moderatorChange [("add-moderator", "channel.moderator.add"),
          ("remove-moderator", "channel.moderator.remove")], chatTwin]
      (List.Perm.swap _ _ _)
      (List.Forall₂.cons (List.Perm.refl _)
        (List.Forall₂.cons (List.Perm.swap _ _ _)
          (List.Forall₂.cons (List.Perm.refl _) List.Forall₂.nil)))).2.2,
    rfl⟩

/-- C12: for every catalog, `WebSocketCommandTopics` returns a lexicographically ascending
list in which every element begins with the literal "websocket", and a topic occurs in it
if and only if some descriptor lists it under the websocket transport and it begins with
"websocket"; so the channel_chat topic "channel.chat.message" never occurs. -/
theorem C12_websocket_command_topics (AllEvents : List MockEvent) :
    List.Sorted (fun a b : String => a ≤ b) (WebSocketCommandTopics AllEvents)
      ∧ (∀ k ∈ WebSocketCommandTopics AllEvents, strings.HasPrefix k "websocket" = true)
      ∧ (∀ k, k ∈ WebSocketCommandTopics AllEvents ↔
          ((∃ e ∈ AllEvents, k ∈ e.GetAllTopicsByTransport "websocket")
            ∧ strings.HasPrefix k "websocket" = true))
      ∧ "channel.chat.message" ∉ WebSocketCommandTopics AllEvents := by
  refine ⟨?_, ?_, fun k => mem_WebSocketCommandTopics AllEvents k, ?_⟩
  · have h : List.Sorted (fun a b : String => a.data ≤ b.data)
        (WebSocketCommandTopics AllEvents) := by
      unfold WebSocketCommandTopics sort.Strings
      haveI : IsTotal String (fun a b : String => a.data ≤ b.data) :=
        ⟨fun a b => le_total a.data b.data⟩
      haveI : IsTrans String (fun a b : String => a.data ≤ b.data) :=
        ⟨fun a b c h1 h2 => le_trans h1 h2⟩
      exact List.sorted_insertionSort _ _
    unfold List.Sorted at h ⊢
    refine h.imp ?_
    intro a b hab
    rw [String.le_iff_toList_le]
    exact hab
  · intro k hk
    exact ((mem_WebSocketCommandTopics AllEvents k).1 hk).2
  · intro hk
    have h2 := ((mem_WebSocketCommandTopics AllEvents _).1 hk).2
    revert h2
    decide

/-- C13: for the channel_chat descriptor and a supported transport, the payload produced by
`GenerateEvent` always has the top-level key "subscription", and has the top-level key
"event" if and only if the request's subscription status equals "enabled"
case-insensitively; its top-level keys are "subscription" and "event" in the one case,
"subscription" alone in the other. -/
theorem C13_payload_top_level_keys (params : MockEventParameters) (r : rand.Reader)
    (h : channel_chat.ValidTransport params.Transport = true) :
    ∃ doc, (channel_chat.GenerateEvent params r).1.JSON = some doc
      ∧ (doc.get? "subscription").isSome = true
      ∧ ((doc.get? "event").isSome = true ↔
          strings.EqualFold params.SubscriptionStatus "enabled" = true)
      ∧ doc.keys = (if strings.EqualFold params.SubscriptionStatus "enabled" = true
          then ["subscription", "event"] else ["subscription"]) := by
  rw [channel_chat.GenerateEvent_of_supported params r h]
  by_cases he : strings.EqualFold params.SubscriptionStatus "enabled" = true
  · rw [if_pos he, if_pos he]
    exact ⟨_, rfl, rfl, ⟨fun _ => he, fun _ => rfl⟩, rfl⟩
  · rw [if_neg he, if_neg he]
    refine ⟨_, rfl, rfl, ⟨?_, fun h2 => absurd h2 he⟩, rfl⟩
    intro h2
    have h3 : false = true := h2
    exact Bool.noConfusion h3

/-- Witness of C13: the statuses "enabled" and "ENABLED" keep the event, the status
"webhook_callback_verification_pending" drops it. -/
theorem C13_payload_top_level_keys_witness :
    channel_chat.ValidTransport (sampleRequest "ENABLED" "webhook").Transport = true
      ∧ ((channel_chat.GenerateEvent (sampleRequest "enabled" "webhook")
          countingReader).1.JSON.map json.Value.keys = some ["subscription", "event"])
      ∧ ((channel_chat.GenerateEvent (sampleRequest "ENABLED" "webhook")
          countingReader).1.JSON.map json.Value.keys = some ["subscription", "event"])
      ∧ ((channel_chat.GenerateEvent
          (sampleRequest "webhook_callback_verification_pending" "websocket")
          countingReader).1.JSON.map json.Value.keys = some ["subscription"])
      ∧ ∃ doc, (channel_chat.GenerateEvent (sampleRequest "ENABLED" "webhook")
          countingReader).1.JSON = some doc
        ∧ (doc.get? "subscription").isSome = true
        ∧ ((doc.get? "event").isSome = true ↔
            strings.EqualFold (sampleRequest "ENABLED" "webhook").SubscriptionStatus "enabled"
              = true)
        ∧ doc.keys = (if strings.EqualFold
            (sampleRequest "ENABLED" "webhook").SubscriptionStatus "enabled" = true
            then ["subscription", "event"] else ["subscription"]) :=
  ⟨rfl, rfl, rfl, rfl,
    C13_payload_top_level_keys (sampleRequest "ENABLED" "webhook") countingReader rfl⟩

/-- C14: for the channel_chat descriptor, a transport is unsupported exactly when it is
neither "webhook" nor "websocket"; for every request with an unsupported transport
`GenerateEvent` returns the empty response (empty ID, no JSON, empty users) and a nil
error; and for every supported transport it returns a non-empty JSON payload, an object
with at least one member, and a nil error. -/
theorem C14_unsupported_transport_empty_response (params : MockEventParameters)
    (r : rand.Reader) :
    (channel_chat.ValidTransport params.Transport = false ↔
        ¬ (params.Transport = "webhook" ∨ params.Transport = "websocket"))
      ∧ (channel_chat.ValidTransport params.Transport = false →
          channel_chat.GenerateEvent params r
            = ({ ID := "", JSON := none, FromUser := "", ToUser := "" }, none))
      ∧ (channel_chat.ValidTransport params.Transport = true →
          ∃ members, members ≠ []
            ∧ (channel_chat.GenerateEvent params r).1.JSON = some (json.Value.object members)
            ∧ (channel_chat.GenerateEvent params r).2 = none) := by
  have hiff : channel_chat.ValidTransport params.Transport = false ↔
      ¬ (params.Transport = "webhook" ∨ params.Transport = "websocket") := by
    rw [← channel_chat.ValidTransport_iff]
    simp
  refine ⟨hiff, ?_, ?_⟩
  · intro h
    have hn : ¬ (params.Transport = models.TransportWebhook
        ∨ params.Transport = models.TransportWebSocket) := hiff.1 h
    unfold channel_chat.GenerateEvent
    rw [if_neg hn]
  · intro h
    rw [channel_chat.GenerateEvent_of_supported params r h]
    by_cases he : strings.EqualFold params.SubscriptionStatus "enabled" = true
    · rw [if_pos he]
      refine ⟨_, ?_, rfl, rfl⟩
      intro hnil
      have h0 : (2 : Nat) = 0 := congrArg List.length hnil
      exact absurd h0 (by decide)
    · rw [if_neg he]
      refine ⟨_, ?_, rfl, rfl⟩
      intro hnil
      have h0 : (1 : Nat) = 0 := congrArg List.length hnil
      exact absurd h0 (by decide)

/-- Witness of C14: a request on the transport "eventbridge" gets the empty response, a
request on the transport "websocket" a payload. -/
theorem C14_unsupported_transport_empty_response_witness :
    channel_chat.ValidTransport (sampleRequest "enabled" "eventbridge").Transport = false
      ∧ channel_chat.GenerateEvent (sampleRequest "enabled" "eventbridge") countingReader
          = ({ ID := "", JSON := none, FromUser := "", ToUser := "" }, none)
      ∧ channel_chat.ValidTransport (sampleRequest "enabled" "websocket").Transport = true
      ∧ ∃ members, members ≠ []
          ∧ (channel_chat.GenerateEvent (sampleRequest "enabled" "websocket")
              countingReader).1.JSON = some (json.Value.object members)
          ∧ (channel_chat.GenerateEvent (sampleRequest "enabled" "websocket")
              countingReader).2 = none :=
  ⟨rfl,
    (C14_unsupported_transport_empty_response (sampleRequest "enabled" "eventbridge")
      countingReader).2.1 rfl,
    rfl,
    (C14_unsupported_transport_empty_response (sampleRequest "enabled" "websocket")
      countingReader).2.2 rfl⟩

namespace channel_chat

theorem ValidTrigger_iff (t : String) : ValidTrigger t = true ↔ t = "message" := by
  unfold ValidTrigger triggerSupported
  simp only [List.any_cons, List.any_nil, Bool.or_false, beq_iff_eq]
  exact eq_comm

/-- The topic of channel_chat: "channel.chat.message" for the trigger "message" under
"webhook" or "websocket", and the empty string otherwise. -/
theorem GetTopic_eq (tr t : String) :
    GetTopic tr t =
      if (tr = "webhook" ∨ tr = "websocket") ∧ t = "message" then "channel.chat.message"
      else "" := by
  unfold GetTopic triggerMapping models.TransportWebhook models.TransportWebSocket
  by_cases ht : t = "message"
  · subst ht
    by_cases h1 : tr = "webhook"
    · subst h1
      rfl
    · by_cases h2 : tr = "websocket"
      · subst h2
        rfl
      · have e1 : (tr == "webhook") = false := by simpa using h1
        have e2 : (tr == "websocket") = false := by simpa using h2
        simp [List.lookup, e1, e2, h1, h2]
  · have e0 : (t == "message") = false := by simpa using ht
    by_cases h1 : tr = "webhook"
    · subst h1
      simp [List.lookup, e0, ht]
    · by_cases h2 : tr = "websocket"
      · subst h2
        simp [List.lookup, e0, ht]
      · have e1 : (tr == "webhook") = false := by simpa using h1
        have e2 : (tr == "websocket") = false := by simpa using h2
        simp [List.lookup, e1, e2, ht]

/-- The alias of channel_chat: "message" for the topic "channel.chat.message", and the
empty string otherwise. -/
theorem GetEventSubAlias_eq (x : String) :
    GetEventSubAlias x = if x = "channel.chat.message" then "message" else "" := by
  unfold GetEventSubAlias triggerMapping models.TransportWebhook
  by_cases hx : x = "channel.chat.message"
  · subst hx
    rfl
  · have hx2 : ¬ "channel.chat.message" = x := fun h => hx h.symm
    simp [List.lookup, aliasIn, hx, hx2]

end channel_chat

/-- C15 (descriptor invariant for channel_chat): for every transport `tr` and trigger `t`,
`GetTopic tr t` is a non-empty topic string if and only if `ValidTransport tr` and
`ValidTrigger t` both hold; it is then "channel.chat.message", and absent entries yield
the empty string. -/
theorem C15_channel_chat_topic_invariant (tr t : String) :
    (channel_chat.GetTopic tr t ≠ "" ↔
        (channel_chat.ValidTransport tr = true ∧ channel_chat.ValidTrigger t = true))
      ∧ (channel_chat.ValidTransport tr = true → channel_chat.ValidTrigger t = true →
          channel_chat.GetTopic tr t = "channel.chat.message")
      ∧ (¬ (channel_chat.ValidTransport tr = true ∧ channel_chat.ValidTrigger t = true) →
          channel_chat.GetTopic tr t = "") := by
  rw [channel_chat.GetTopic_eq, channel_chat.ValidTransport_iff, channel_chat.ValidTrigger_iff]
  by_cases h : (tr = "webhook" ∨ tr = "websocket") ∧ t = "message"
  · rw [if_pos h]
    refine ⟨⟨fun _ => h, fun _ => by decide⟩, fun _ _ => rfl, fun hn => absurd h hn⟩
  · rw [if_neg h]
    refine ⟨⟨fun hne => absurd rfl hne, fun h2 => absurd h2 h⟩,
      fun h1 h2 => absurd ⟨h1, h2⟩ h, fun _ => rfl⟩

/-- Witness of C15: the topic of ("webhook", "message") is "channel.chat.message", the
topic of ("webhook", "clear") and of ("eventbridge", "message") is empty. -/
theorem C15_channel_chat_topic_invariant_witness :
    channel_chat.GetTopic "webhook" "message" = "channel.chat.message"
      ∧ channel_chat.GetTopic "webhook" "clear" = ""
      ∧ channel_chat.GetTopic "eventbridge" "message" = "" :=
  ⟨(C15_channel_chat_topic_invariant "webhook" "message").2.1 rfl rfl,
    (C15_channel_chat_topic_invariant "webhook" "clear").2.2 (by decide),
    (C15_channel_chat_topic_invariant "eventbridge" "message").2.2 (by decide)⟩

/-- C16 (alias reverse lookup round trip for channel_chat): for every supported trigger
`t`, `GetEventSubAlias (GetTopic "webhook" t) = t`; and for every string `x`,
`GetEventSubAlias x` is either the empty string, exactly when no supported trigger maps
to `x` under webhook, or a trigger `r` with `ValidTrigger r` and
`GetTopic "webhook" r = x`. -/
theorem C16_alias_round_trip (t : String) (ht : channel_chat.ValidTrigger t = true) :
    channel_chat.GetEventSubAlias (channel_chat.GetTopic "webhook" t) = t
      ∧ (∀ x, (channel_chat.GetEventSubAlias x = ""
            ∧ ∀ r, channel_chat.ValidTrigger r = true → channel_chat.GetTopic "webhook" r ≠ x)
          ∨ (channel_chat.GetEventSubAlias x ≠ ""
            ∧ channel_chat.ValidTrigger (channel_chat.GetEventSubAlias x) = true
            ∧ channel_chat.GetTopic "webhook" (channel_chat.GetEventSubAlias x) = x)) := by
  constructor
  · rw [channel_chat.ValidTrigger_iff] at ht
    subst ht
    rfl
  · intro x
    by_cases hx : x = "channel.chat.message"
    · subst hx
      exact Or.inr ⟨by decide, rfl, rfl⟩
    · left
      constructor
      · rw [channel_chat.GetEventSubAlias_eq, if_neg hx]
      · intro r hr
        rw [channel_chat.ValidTrigger_iff] at hr
        subst hr
        intro h
        exact hx h.symm

/-- Witness of C16: the trigger "message". -/
theorem C16_alias_round_trip_witness :
    channel_chat.ValidTrigger "message" = true
      ∧ channel_chat.GetTopic "webhook" "message" = "channel.chat.message"
      ∧ channel_chat.GetEventSubAlias (channel_chat.GetTopic "webhook" "message") = "message" :=
  ⟨rfl, rfl, (C16_alias_round_trip "message" rfl).1⟩

/-- C17, at the failing input: when the random source delivers 0, `RandomUserID` returns
"0", which is below the documented range 1 to 100,000,000. For every random source the
result is the decimal form of a number from 0 to 99,999,999. -/
theorem C17_random_user_id_zero :
    (util.RandomUserID (fun _ => 0)).1 = "0"
      ∧ (util.RandomUserID (fun _ => 99999999)).1 = "99999999"
      ∧ ∀ r : rand.Reader, ∃ n : Nat, n < 100000000 ∧ (util.RandomUserID r).1 = toString n := by
  refine ⟨rfl, rfl, ?_⟩
  intro r
  exact ⟨r 0 % 100000000, Nat.mod_lt _ (by decide), rfl⟩

/-- C19: for the channel_chat descriptor and every request with a supported transport, the
subscription of the envelope has type equal to `GetTopic` of the request's transport and
trigger, version equal to `SubscriptionVersion`, which is "1", id, status and created_at
copied from the request's subscription id, subscription status and timestamp, and
cost 0. -/
theorem C19_subscription_envelope (params : MockEventParameters) (r : rand.Reader)
    (h : channel_chat.ValidTransport params.Transport = true) :
    ∃ doc sub, (channel_chat.GenerateEvent params r).1.JSON = some doc
      ∧ doc.get? "subscription" = some sub
      ∧ sub.get? "type"
          = some (json.Value.string (channel_chat.GetTopic params.Transport params.Trigger))
      ∧ sub.get? "version" = some (json.Value.string channel_chat.SubscriptionVersion)
      ∧ channel_chat.SubscriptionVersion = "1"
      ∧ sub.get? "id" = some (json.Value.string params.SubscriptionID)
      ∧ sub.get? "status" = some (json.Value.string params.SubscriptionStatus)
      ∧ sub.get? "created_at" = some (json.Value.string params.Timestamp)
      ∧ sub.get? "cost" = some (json.Value.number 0) := by
  rw [channel_chat.GenerateEvent_of_supported params r h]
  by_cases he : strings.EqualFold params.SubscriptionStatus "enabled" = true
  · rw [if_pos he]
    exact ⟨_, _, rfl, rfl, rfl, rfl, rfl, rfl, rfl, rfl, rfl⟩
  · rw [if_neg he]
    exact ⟨_, _, rfl, rfl, rfl, rfl, rfl, rfl, rfl, rfl, rfl⟩

/-- Witness of C19: a request on "webhook" whose subscription is pending; the type of the
subscription is "channel.chat.message". -/
theorem C19_subscription_envelope_witness :
    channel_chat.ValidTransport
        (sampleRequest "webhook_callback_verification_pending" "webhook").Transport = true
      ∧ channel_chat.GetTopic "webhook" "message" = "channel.chat.message"
      ∧ ∃ doc sub, (channel_chat.GenerateEvent
            (sampleRequest "webhook_callback_verification_pending" "webhook")
            countingReader).1.JSON = some doc
          ∧ doc.get? "subscription" = some sub
          ∧ sub.get? "type" = some (json.Value.string (channel_chat.GetTopic
              (sampleRequest "webhook_callback_verification_pending" "webhook").Transport
              (sampleRequest "webhook_callback_verification_pending" "webhook").Trigger))
          ∧ sub.get? "version" = some (json.Value.string channel_chat.SubscriptionVersion)
          ∧ channel_chat.SubscriptionVersion = "1"
          ∧ sub.get? "id" = some (json.Value.string
              (sampleRequest "webhook_callback_verification_pending" "webhook").SubscriptionID)
          ∧ sub.get? "status" = some (json.Value.string
              (sampleRequest "webhook_callback_verification_pending"
                "webhook").SubscriptionStatus)
          ∧ sub.get? "created_at" = some (json.Value.string
              (sampleRequest "webhook_callback_verification_pending" "webhook").Timestamp)
          ∧ sub.get? "cost" = some (json.Value.number 0) :=
  ⟨rfl, rfl,
    C19_subscription_envelope
      (sampleRequest "webhook_callback_verification_pending" "webhook") countingReader rfl⟩

/-! ## Where a returned descriptor comes from -/

namespace types

theorem rewriteTrigger_cases (transport : String) (e : MockEvent) (trigger : String) :
    rewriteTrigger transport e trigger = trigger
      ∨ ((transport = "webhook" ∨ transport = "websocket")
        ∧ rewriteTrigger transport e trigger = e.GetEventSubAlias trigger
        ∧ e.GetEventSubAlias trigger ≠ "") := by
  unfold rewriteTrigger
  by_cases htr : transport = models.TransportWebhook ∨ transport = models.TransportWebSocket
  · rw [if_pos htr]
    by_cases ha : e.GetEventSubAlias trigger ≠ ""
    · rw [if_pos ha]
      exact Or.inr ⟨htr, rfl, ha⟩
    · rw [if_neg ha]
      exact Or.inl rfl
  · rw [if_neg htr]
    exact Or.inl rfl

/-- The working trigger after a scan is the requested one, or a non-empty alias that a
scanned descriptor has returned while the transport was "webhook" or "websocket". -/
theorem finalTrigger_cases (transport : String) (l : List MockEvent) (trigger : String) :
    finalTrigger transport l trigger = trigger
      ∨ ((transport = "webhook" ∨ transport = "websocket")
        ∧ finalTrigger transport l trigger ≠ ""
        ∧ ∃ e ∈ l, ∃ u, e.GetEventSubAlias u = finalTrigger transport l trigger) := by
  induction l generalizing trigger with
  | nil => exact Or.inl rfl
  | cons e rest ih =>
    simp only [finalTrigger]
    rcases ih (rewriteTrigger transport e trigger) with h | ⟨htr, hne, e2, he2, u, hu⟩
    · rcases rewriteTrigger_cases transport e trigger with h2 | ⟨htr, h2, h3⟩
      · exact Or.inl (h.trans h2)
      · right
        refine ⟨htr, ?_, e, List.mem_cons_self _ _, trigger, ?_⟩
        · rw [h, h2]
          exact h3
        · rw [h, h2]
    · exact Or.inr ⟨htr, hne, e2, List.mem_cons_of_mem _ he2, u, hu⟩

/-- A candidate is a descriptor of the catalog that passes the trigger and transport test
for the working trigger at its position. -/
theorem mem_candidates (transport : String) (l : List MockEvent) (trigger : String)
    (d : MockEvent) (hd : d ∈ candidates transport l trigger) :
    ∃ pre post, l = pre ++ d :: post
      ∧ accepts d (finalTrigger transport (pre ++ [d]) trigger) transport = true := by
  induction l generalizing trigger with
  | nil => simp [candidates] at hd
  | cons e rest ih =>
    simp only [candidates] at hd
    by_cases hacc : accepts e (rewriteTrigger transport e trigger) transport = true
    · rw [if_pos hacc] at hd
      rcases List.mem_cons.1 hd with h | h
      · subst h
        exact ⟨[], rest, rfl, hacc⟩
      · obtain ⟨pre, post, hl, hp⟩ := ih _ h
        exact ⟨e :: pre, post, by rw [hl]; rfl, hp⟩
    · rw [if_neg hacc] at hd
      obtain ⟨pre, post, hl, hp⟩ := ih _ hd
      exact ⟨e :: pre, post, by rw [hl]; rfl, hp⟩

/-- What the resolver returns as a descriptor is a candidate, of the requested version
unless that version is empty. -/
theorem resolve_some (AllEvents : List MockEvent) (trigger transport version : String)
    (d : MockEvent)
    (h : (GetByTriggerAndTransportAndVersion AllEvents trigger transport version).1 = some d) :
    d ∈ candidates transport AllEvents trigger
      ∧ (d.SubscriptionVersion = version ∨ version = "")
      ∧ (GetByTriggerAndTransportAndVersion AllEvents trigger transport version).2 = none := by
  rw [resolve_eq] at h ⊢
  cases hfind : List.find? (fun e => decide (e.SubscriptionVersion = version))
      (candidates transport AllEvents trigger) with
  | some d2 =>
    rw [hfind] at h
    have hd : d2 = d := Option.some.inj h
    subst hd
    have hv := List.find?_some hfind
    exact ⟨List.mem_of_find?_eq_some hfind, Or.inl (by simpa using hv), rfl⟩
  | none =>
    rw [hfind] at h
    simp only [afterScan] at h ⊢
    by_cases c1 : version = "" ∧ (candidates transport AllEvents trigger).length = 1
    · rw [if_pos c1] at h ⊢
      exact ⟨List.mem_of_mem_getLast? h, Or.inr c1.1, rfl⟩
    · rw [if_neg c1] at h
      by_cases c2 : (candidates transport AllEvents trigger).length ≠ 0
      · rw [if_pos c2] at h
        exact absurd h (by simp)
      · rw [if_neg c2] at h
        by_cases c3 : strings.EqualFold transport "websocket" = true
        · rw [if_pos c3] at h
          exact absurd h (by simp)
        · rw [if_neg c3] at h
          exact absurd h (by simp)

/-- The resolver returns a descriptor and no error, or an error and no descriptor. -/
theorem resolve_exclusive (AllEvents : List MockEvent) (trigger transport version : String) :
    ((GetByTriggerAndTransportAndVersion AllEvents trigger transport version).1.isSome = true
        ∧ (GetByTriggerAndTransportAndVersion AllEvents trigger transport version).2 = none)
      ∨ ((GetByTriggerAndTransportAndVersion AllEvents trigger transport version).1 = none
        ∧ (GetByTriggerAndTransportAndVersion AllEvents trigger transport version).2.isSome
          = true) := by
  rw [resolve_eq]
  cases hfind : List.find? (fun e => decide (e.SubscriptionVersion = version))
      (candidates transport AllEvents trigger) with
  | some d2 => exact Or.inl ⟨rfl, rfl⟩
  | none =>
    simp only [afterScan]
    by_cases c1 : version = "" ∧ (candidates transport AllEvents trigger).length = 1
    · rw [if_pos c1]
      left
      refine ⟨?_, rfl⟩
      obtain ⟨c, hc⟩ := List.length_eq_one.1 c1.2
      rw [hc]
      rfl
    · rw [if_neg c1]
      by_cases c2 : (candidates transport AllEvents trigger).length ≠ 0
      · rw [if_pos c2]
        exact Or.inr ⟨rfl, rfl⟩
      · rw [if_neg c2]
        by_cases c3 : strings.EqualFold transport "websocket" = true
        · rw [if_pos c3]
          exact Or.inr ⟨rfl, rfl⟩
        · rw [if_neg c3]
          exact Or.inr ⟨rfl, rfl⟩

end types

/-- C20 (resolver soundness): whenever `GetByTriggerAndTransportAndVersion` returns a
descriptor `d`, it returns no error, `d` is an element of the catalog at some position,
`d.ValidTransport transport` holds, `d.ValidTrigger` holds for the working trigger at that
position, which is the requested trigger or a non-empty alias that a descriptor up to that
position has returned, and `d.SubscriptionVersion` equals the requested version or the
requested version is empty; and the resolver never returns both a descriptor and an
error, nor neither. -/
theorem C20_resolver_soundness (AllEvents : List MockEvent)
    (trigger transport version : String) :
    (∀ d, (GetByTriggerAndTransportAndVersion AllEvents trigger transport version).1 = some d →
        (GetByTriggerAndTransportAndVersion AllEvents trigger transport version).2 = none
        ∧ d ∈ AllEvents
        ∧ d.ValidTransport transport = true
        ∧ (∃ pre post w, AllEvents = pre ++ d :: post
            ∧ w = finalTrigger transport (pre ++ [d]) trigger
            ∧ d.ValidTrigger w = true
            ∧ (w = trigger
              ∨ ((transport = "webhook" ∨ transport = "websocket") ∧ w ≠ ""
                ∧ ∃ e ∈ pre ++ [d], ∃ u, e.GetEventSubAlias u = w)))
        ∧ (d.SubscriptionVersion = version ∨ version = ""))
      ∧ (((GetByTriggerAndTransportAndVersion AllEvents trigger transport version).1.isSome
            = true
          ∧ (GetByTriggerAndTransportAndVersion AllEvents trigger transport version).2 = none)
        ∨ ((GetByTriggerAndTransportAndVersion AllEvents trigger transport version).1 = none
          ∧ (GetByTriggerAndTransportAndVersion AllEvents trigger transport version).2.isSome
            = true)) := by
  refine ⟨?_, resolve_exclusive AllEvents trigger transport version⟩
  intro d hd
  obtain ⟨hmem, hver, herr⟩ := resolve_some AllEvents trigger transport version d hd
  obtain ⟨pre, post, hl, hacc⟩ := mem_candidates transport AllEvents trigger d hmem
  simp only [accepts, Bool.and_eq_true] at hacc
  refine ⟨herr, ?_, hacc.2, ⟨pre, post, _, hl, rfl, hacc.1, ?_⟩, hver⟩
  · rw [hl]
    simp
  · rcases finalTrigger_cases transport (pre ++ [d]) trigger with h | ⟨htr, hne, e, he, u, hu⟩
    · exact Or.inl h
    · exact Or.inr ⟨htr, hne, e, he, u, hu⟩

/-- Witness of C20: the request ("channel.chat.message", "websocket", "") against the
catalog `[streamChange "1", channel_chat.Event]` returns `channel_chat.Event`, which
accepts the trigger "message" that the topic was rewritten to. -/
theorem C20_resolver_soundness_witness :
    GetByTriggerAndTransportAndVersion [streamChange "1", channel_chat.Event]
        "channel.chat.message" "websocket" "" = (some channel_chat.Event, none)
      ∧ finalTrigger "websocket" ([streamChange "1"] ++ [channel_chat.Event])
        "channel.chat.message" = "message"
      ∧ channel_chat.Event ∈ [streamChange "1", channel_chat.Event]
      ∧ channel_chat.Event.ValidTransport "websocket" = true :=
  ⟨rfl, rfl,
    ((C20_resolver_soundness [streamChange "1", channel_chat.Event]
      "channel.chat.message" "websocket" "").1 channel_chat.Event rfl).2.1,
    ((C20_resolver_soundness [streamChange "1", channel_chat.Event]
      "channel.chat.message" "websocket" "").1 channel_chat.Event rfl).2.2.1⟩

/-! ## The working trigger along the scan -/

namespace types

theorem finalTrigger_append (transport : String) (pre rest : List MockEvent) (trigger : String) :
    finalTrigger transport (pre ++ rest) trigger
      = finalTrigger transport rest (finalTrigger transport pre trigger) := by
  induction pre generalizing trigger with
  | nil => rfl
  | cons e pre ih =>
    rw [List.cons_append]
    simp only [finalTrigger]
    exact ih _

theorem workingTriggers_append (transport : String) (pre rest : List MockEvent)
    (trigger : String) :
    workingTriggers transport (pre ++ rest) trigger
      = workingTriggers transport pre trigger
        ++ workingTriggers transport rest (finalTrigger transport pre trigger) := by
  induction pre generalizing trigger with
  | nil => rfl
  | cons e pre ih =>
    rw [List.cons_append]
    simp only [workingTriggers, finalTrigger, List.cons_append]
    rw [ih]

theorem candidates_append (transport : String) (pre rest : List MockEvent) (trigger : String) :
    candidates transport (pre ++ rest) trigger
      = candidates transport pre trigger
        ++ candidates transport rest (finalTrigger transport pre trigger) := by
  induction pre generalizing trigger with
  | nil => rfl
  | cons e pre ih =>
    rw [List.cons_append]
    simp only [candidates, finalTrigger]
    by_cases hacc : accepts e (rewriteTrigger transport e trigger) transport = true
    · rw [if_pos hacc, if_pos hacc, ih, List.cons_append]
    · rw [if_neg hacc, if_neg hacc, ih]

/-- The candidates are the descriptors that pass the test for their working trigger. -/
theorem candidates_eq_filter_workingTriggers (transport : String) (l : List MockEvent)
    (trigger : String) :
    candidates transport l trigger
      = ((l.zip (workingTriggers transport l trigger)).filter
          (fun p => accepts p.1 p.2 transport)).map Prod.fst := by
  induction l generalizing trigger with
  | nil => rfl
  | cons e rest ih =>
    simp only [candidates, workingTriggers, List.zip_cons_cons, List.filter_cons]
    by_cases hacc : accepts e (rewriteTrigger transport e trigger) transport = true
    · rw [if_pos hacc, if_pos hacc, List.map_cons, ih]
    · rw [if_neg hacc, if_neg hacc, ih]

theorem workingTriggers_of_no_alias (transport : String) (l : List MockEvent) (trigger : String)
    (h : ∀ e ∈ l, e.GetEventSubAlias trigger = "") :
    workingTriggers transport l trigger = List.replicate l.length trigger := by
  induction l with
  | nil => rfl
  | cons e rest ih =>
    have he : rewriteTrigger transport e trigger = trigger :=
      rewriteTrigger_of_not_aliasFires
        (aliasFires_of_alias_empty transport (h e (List.mem_cons_self _ _)))
    simp only [workingTriggers, he, List.length_cons, List.replicate_succ]
    rw [ih (fun x hx => h x (List.mem_cons_of_mem _ hx))]

end types

/-- C18, as stated, fails in three ways, all with the topic "channel.chat.message" that
`aliasOnly` rewrites to "message" at position 0 without supporting "message". In
`[aliasOnly, relabel]` the second descriptor supports "message" and not the topic, but
returns an alias of its own for "message": it is tested with "msg", not with the
rewritten trigger, and the resolver fails. In `[aliasOnly, mirror, topicNamed "1"]` the
second descriptor rewrites "message" back, so that the third is tested with the original
string, and returned. In `[aliasOnly, websocketChat]` the second descriptor supports
"message" and not the topic, but not the webhook transport, and the resolver fails. -/
theorem C18_counterexample :
    (aliasOnly.GetEventSubAlias "channel.chat.message" = "message"
      ∧ aliasOnly.ValidTrigger "message" = false
      ∧ relabel.ValidTrigger "message" = true
      ∧ relabel.ValidTrigger "channel.chat.message" = false
      ∧ workingTriggers "webhook" [aliasOnly, relabel] "channel.chat.message"
          = ["message", "msg"]
      ∧ GetByTriggerAndTransportAndVersion [aliasOnly, relabel]
          "channel.chat.message" "webhook" relabel.SubscriptionVersion
          = (none, some "Invalid event"))
    ∧ (workingTriggers "webhook" [aliasOnly, mirror, topicNamed "1"] "channel.chat.message"
          = ["message", "channel.chat.message", "channel.chat.message"]
      ∧ GetByTriggerAndTransportAndVersion [aliasOnly, mirror, topicNamed "1"]
          "channel.chat.message" "webhook" "1" = (some (topicNamed "1"), none))
    ∧ (websocketChat.ValidTrigger "message" = true
      ∧ websocketChat.ValidTrigger "channel.chat.message" = false
      ∧ GetByTriggerAndTransportAndVersion [aliasOnly, websocketChat]
          "channel.chat.message" "webhook" websocketChat.SubscriptionVersion
          = (none, some "Invalid event")) :=
  ⟨⟨rfl, rfl, rfl, rfl, rfl, rfl⟩, ⟨rfl, rfl⟩, ⟨rfl, rfl, rfl⟩⟩

/-- C18, amended (alias rewrite persistence): for the transport "webhook" or "websocket",
once the descriptor `d` at a catalog position returns a non-empty alias `t` for the
working trigger, `d` is tested with `t`, and every descriptor after it is asked for
aliases and tested with `t` as well, provided none of them returns a non-empty alias for
`t`: the loop never restores the original trigger by itself. In particular, when no
descriptor before `d` is a candidate, `d` does not accept `t`, and the next descriptor
`d2` accepts `t` and the transport, the request with the version of `d2` returns `d2`;
e.g. for `[d1, d2]` where `d1` aliases T to t without supporting t. -/
theorem C18_alias_rewrite_persists (pre post : List MockEvent) (d : MockEvent)
    (trigger t transport version : String)
    (htr : transport = "webhook" ∨ transport = "websocket")
    (hfire : d.GetEventSubAlias (finalTrigger transport pre trigger) = t) (ht : t ≠ "")
    (hpost : ∀ e ∈ post, e.GetEventSubAlias t = "") :
    workingTriggers transport (pre ++ d :: post) trigger
        = workingTriggers transport pre trigger ++ List.replicate (post.length + 1) t
      ∧ candidates transport (pre ++ d :: post) trigger
        = candidates transport pre trigger
          ++ (d :: post).filter (fun e => accepts e t transport)
      ∧ (∀ d2 rest, post = d2 :: rest → candidates transport pre trigger = [] →
          accepts d t transport = false → accepts d2 t transport = true →
          d2.SubscriptionVersion = version →
          GetByTriggerAndTransportAndVersion (pre ++ d :: post) trigger transport version
            = (some d2, none)) := by
  have hrw : rewriteTrigger transport d (finalTrigger transport pre trigger) = t := by
    have htr2 : transport = models.TransportWebhook ∨ transport = models.TransportWebSocket := htr
    simp only [rewriteTrigger, if_pos htr2, hfire]
    rw [if_pos ht]
  have hal : ∀ e ∈ post, aliasFires transport e t = false :=
    fun e he => aliasFires_of_alias_empty transport (hpost e he)
  have hcands : candidates transport (pre ++ d :: post) trigger
      = candidates transport pre trigger
        ++ (d :: post).filter (fun e => accepts e t transport) := by
    rw [candidates_append]
    simp only [candidates, hrw, candidates_of_no_alias transport t post hal, List.filter_cons]
  refine ⟨?_, hcands, ?_⟩
  · rw [workingTriggers_append]
    simp only [workingTriggers, hrw, workingTriggers_of_no_alias transport post t hpost,
      List.replicate_succ]
  · intro d2 rest hp hpre hd hd2 hv
    rw [resolve_eq, hcands, hpre, hp]
    simp [List.filter_cons, hd, hd2, hv]

/-- Witness of C18: in the catalog `[aliasOnly, channel_chat.Event]`, `aliasOnly` rewrites
"channel.chat.message" to "message" without supporting it, and the request with the
version of `channel_chat.Event` on "webhook" returns `channel_chat.Event`. -/
theorem C18_alias_rewrite_persists_witness :
    aliasOnly.GetEventSubAlias "channel.chat.message" = "message"
      ∧ aliasOnly.ValidTrigger "message" = false
      ∧ channel_chat.Event.ValidTrigger "message" = true
      ∧ channel_chat.Event.ValidTrigger "channel.chat.message" = false
      ∧ workingTriggers "webhook" ([] ++ aliasOnly :: [channel_chat.Event])
          "channel.chat.message" = ["message", "message"]
      ∧ GetByTriggerAndTransportAndVersion ([] ++ aliasOnly :: [channel_chat.Event])
          "channel.chat.message" "webhook" channel_chat.Event.SubscriptionVersion
          = (some channel_chat.Event, none) :=
  ⟨rfl, rfl, rfl, rfl,
    (C18_alias_rewrite_persists [] [channel_chat.Event] aliasOnly "channel.chat.message"
      "message" "webhook" channel_chat.Event.SubscriptionVersion (Or.inl rfl) rfl (by decide)
      (by
        intro e he
        simp only [List.mem_singleton] at he
        subst he
        rfl)).1,
    (C18_alias_rewrite_persists [] [channel_chat.Event] aliasOnly "channel.chat.message"
      "message" "webhook" channel_chat.Event.SubscriptionVersion (Or.inl rfl) rfl (by decide)
      (by
        intro e he
        simp only [List.mem_singleton] at he
        subst he
        rfl)).2.2 channel_chat.Event [] rfl rfl rfl rfl rfl⟩

/-! ## The colour of the event body -/

namespace util

set_option maxRecDepth 1000000 in
/-- Every integer from 0 to 255 is rendered by `getHex` as two lower-case hexadecimal
digits that denote it. -/
theorem getHex_byte : ∀ n : Nat, n < 256 →
    ((getHex (n : Int)).data.length = 2
      ∧ (getHex (n : Int)).data.all isLowerHexDigit = true
      ∧ hexValue (getHex (n : Int)) = n) := by
  decide

/-- What `RandomInt` returns lies in the range 0 to `max - 1`. -/
theorem RandomInt_range (r : rand.Reader) (max : Nat) (hmax : 0 < max) :
    0 ≤ (RandomInt r max).1 ∧ (RandomInt r max).1 < (max : Int) := by
  have h : (RandomInt r max).1 = ((r 0 % max : Nat) : Int) := rfl
  rw [h]
  exact ⟨Int.ofNat_nonneg _, Int.ofNat_lt.2 (Nat.mod_lt _ hmax)⟩

/-- The three components of the colour are the first three draws, reduced modulo 255. -/
theorem RandomColorInRgb_eq (r : rand.Reader) :
    (RandomColorInRgb r).1
      = { Red := ((r 0 % 255 : Nat) : Int)
          Green := ((r 1 % 255 : Nat) : Int)
          Blue := ((r 2 % 255 : Nat) : Int) } := rfl

theorem RandomColorInHex_eq (r : rand.Reader) :
    (RandomColorInHex r).1
      = "#" ++ getHex ((r 0 % 255 : Nat) : Int) ++ getHex ((r 1 % 255 : Nat) : Int)
          ++ getHex ((r 2 % 255 : Nat) : Int) := rfl

end util

/-- C21: for the channel_chat descriptor and every request with a supported transport, the
response returned by `GenerateEvent` has ID equal to the request's event message id and
has both FromUser and ToUser equal to the request's target user id (ToUserID); the
request's source user id never determines FromUser: a request that differs in its source
user id only gets the same FromUser, whatever the random source. -/
theorem C21_response_users (params : MockEventParameters) (r : rand.Reader)
    (h : channel_chat.ValidTransport params.Transport = true) :
    (channel_chat.GenerateEvent params r).1.ID = params.EventMessageID
      ∧ (channel_chat.GenerateEvent params r).1.FromUser = params.ToUserID
      ∧ (channel_chat.GenerateEvent params r).1.ToUser = params.ToUserID
      ∧ (channel_chat.GenerateEvent params r).2 = none
      ∧ ∀ (source : String) (r2 : rand.Reader),
          (channel_chat.GenerateEvent { params with FromUserID := source } r2).1.FromUser
            = (channel_chat.GenerateEvent params r).1.FromUser := by
  rw [channel_chat.GenerateEvent_of_supported params r h]
  refine ⟨rfl, rfl, rfl, rfl, ?_⟩
  intro source r2
  rw [channel_chat.GenerateEvent_of_supported { params with FromUserID := source } r2 h]

/-- Witness of C21: a request on "webhook" from the user 7 to the user 42; the response
names the user 42 on both sides. -/
theorem C21_response_users_witness :
    channel_chat.ValidTransport (sampleRequest "enabled" "webhook").Transport = true
      ∧ (sampleRequest "enabled" "webhook").FromUserID = "7"
      ∧ (sampleRequest "enabled" "webhook").ToUserID = "42"
      ∧ (channel_chat.GenerateEvent (sampleRequest "enabled" "webhook") countingReader).1.ID
          = "9f3b6a10-0000-4000-8000-000000000002"
      ∧ (channel_chat.GenerateEvent (sampleRequest "enabled" "webhook")
          countingReader).1.FromUser = "42"
      ∧ (channel_chat.GenerateEvent (sampleRequest "enabled" "webhook")
          countingReader).1.ToUser = "42" :=
  ⟨rfl, rfl, rfl,
    (C21_response_users (sampleRequest "enabled" "webhook") countingReader rfl).1,
    (C21_response_users (sampleRequest "enabled" "webhook") countingReader rfl).2.1,
    (C21_response_users (sampleRequest "enabled" "webhook") countingReader rfl).2.2.1⟩

/-- C22: for every outcome of the random source, `RandomColorInHex` returns a string of 7
characters, "#" followed by exactly six lower-case hexadecimal digits: it is "#" followed
by `getHex` of the three colour components, each component drawn by `RandomInt(255)` lies
in 0..254, and `getHex` renders every integer in 0..255 as exactly two lower-case
hexadecimal digits, zero-padded, that parse back to the same integer. -/
theorem C22_random_color_in_hex (r : rand.Reader) :
    (util.RandomColorInHex r).1.length = 7
      ∧ (∃ ds, (util.RandomColorInHex r).1.data = '#' :: ds ∧ ds.length = 6
          ∧ ds.all util.isLowerHexDigit = true)
      ∧ (util.RandomColorInHex r).1
          = "#" ++ util.getHex (util.RandomColorInRgb r).1.Red
              ++ util.getHex (util.RandomColorInRgb r).1.Green
              ++ util.getHex (util.RandomColorInRgb r).1.Blue
      ∧ (0 ≤ (util.RandomColorInRgb r).1.Red ∧ (util.RandomColorInRgb r).1.Red ≤ 254)
      ∧ (0 ≤ (util.RandomColorInRgb r).1.Green ∧ (util.RandomColorInRgb r).1.Green ≤ 254)
      ∧ (0 ≤ (util.RandomColorInRgb r).1.Blue ∧ (util.RandomColorInRgb r).1.Blue ≤ 254)
      ∧ (0 ≤ (util.RandomInt r 255).1 ∧ (util.RandomInt r 255).1 ≤ 254)
      ∧ (∀ n : Nat, n ≤ 255 →
          (util.getHex (n : Int)).length = 2
            ∧ (util.getHex (n : Int)).data.all util.isLowerHexDigit = true
            ∧ util.hexValue (util.getHex (n : Int)) = n) := by
  have hlt : ∀ i, r i % 255 < 256 := fun i =>
    Nat.lt_trans (Nat.mod_lt _ (by decide)) (by decide)
  have hle : ∀ i, ((r i % 255 : Nat) : Int) ≤ 254 := fun i =>
    Int.ofNat_le.2 (Nat.le_of_lt_succ (Nat.mod_lt _ (by decide)))
  obtain ⟨a1, a2, _⟩ := util.getHex_byte (r 0 % 255) (hlt 0)
  obtain ⟨b1, b2, _⟩ := util.getHex_byte (r 1 % 255) (hlt 1)
  obtain ⟨c1, c2, _⟩ := util.getHex_byte (r 2 % 255) (hlt 2)
  have hdata : (util.RandomColorInHex r).1.data
      = '#' :: ((util.getHex ((r 0 % 255 : Nat) : Int)).data
          ++ (util.getHex ((r 1 % 255 : Nat) : Int)).data
          ++ (util.getHex ((r 2 % 255 : Nat) : Int)).data) := by
    rw [util.RandomColorInHex_eq]
    simp [String.data_append]
  refine ⟨?_, ⟨_, hdata, ?_, ?_⟩, rfl, ⟨Int.ofNat_nonneg _, hle 0⟩,
    ⟨Int.ofNat_nonneg _, hle 1⟩, ⟨Int.ofNat_nonneg _, hle 2⟩,
    ⟨Int.ofNat_nonneg _, hle 0⟩, ?_⟩
  · show (util.RandomColorInHex r).1.data.length = 7
    rw [hdata]
    simp only [List.length_cons, List.length_append, a1, b1, c1]
  · simp only [List.length_append, a1, b1, c1]
  · simp only [List.all_append, a2, b2, c2, Bool.and_self]
  · intro n hn
    exact util.getHex_byte n (Nat.lt_succ_of_le hn)

/-- Witness of C22: the draws 0, 1, 2 give the colour "#000102", and `getHex` renders 10
as "0a" and 255 as "ff". -/
theorem C22_random_color_in_hex_witness :
    (util.RandomColorInHex countingReader).1 = "#000102"
      ∧ (util.RandomColorInHex countingReader).1.length = 7
      ∧ util.getHex 10 = "0a"
      ∧ util.getHex 255 = "ff"
      ∧ util.hexValue (util.getHex ((255 : Nat) : Int)) = 255 :=
  ⟨rfl, (C22_random_color_in_hex countingReader).1, rfl, rfl,
    ((C22_random_color_in_hex countingReader).2.2.2.2.2.2.2 255 (Nat.le_refl 255)).2.2⟩
